import Mathlib

/-!
# Verification of the invoice-RPA pipeline (Chilean facturas)

Shallow embedding, in Lean 4, of the algorithmic core of the repository:

* `src/src/validation.py` — `validate_rut`, `validate_date`, `validate_invoice_data`
* `src/src/extraction.py` — `estimate_ocr_quality`, `ocr_from_pdf` (control flow)
* `backend/services/pdf_processor_service.py` — `is_scanned_pdf` (decision logic)
* `backend/services/factura_extractor_service.py` — the regex field extractors and
  `extract_all`

Modelling conventions, used throughout:

* Python strings are `List Char`.  The Python string operations used by the code
  (`lower`, `upper`, `strip`, `split`, `replace`, membership) are embedded as
  executable functions over `List Char`; case mapping is modelled on the
  ASCII + Latin-1 range (the only characters the code manipulates).
* Python regular expressions are embedded as hand-written matchers that follow
  the exact pattern of the source, including greedy/lazy quantifier behaviour
  and the scan order of `re.search` / `re.findall`; `\d`, `\s`, `\w` are
  modelled on the ASCII (+ Latin-1 letters for `\w`) range.
* Python `float` is modelled as `ℚ` (exact arithmetic); `int` as `ℤ`/`ℕ`.
* Python exceptions are modelled with `Except PyExc`; an exception caught by
  the source is handled inside the embedded definition, an uncaught one is
  propagated as an `Except.error`.
-/

/-! ## Python character and string primitives -/

/-- Python `\s` (ASCII whitespace range used by `str.strip` and `re`). -/
def isPySpace (c : Char) : Bool :=
  c == ' ' || c == '\t' || c == '\n' || c == '\r' ||
    c == Char.ofNat 11 || c == Char.ofNat 12

/-- Python `\d`, modelled on the ASCII digits. -/
def isDigitC (c : Char) : Bool :=
  48 ≤ c.toNat && c.toNat ≤ 57

/-- Numeric value of an ASCII digit character (Python `int(char)`). -/
def digitVal (c : Char) : Nat := c.toNat - 48

/-- The ASCII digit character for `d` (`str(d)` for `0 ≤ d ≤ 9`). -/
def digitChar (d : Nat) : Char := Char.ofNat (48 + d)

/-- Python `str.lower`, modelled on ASCII and Latin-1 letters. -/
def pyLower (c : Char) : Char :=
  if 65 ≤ c.toNat ∧ c.toNat ≤ 90 then Char.ofNat (c.toNat + 32)
  else if 192 ≤ c.toNat ∧ c.toNat ≤ 222 ∧ c.toNat ≠ 215 then Char.ofNat (c.toNat + 32)
  else c

/-- Python `str.upper`, modelled on ASCII and Latin-1 letters. -/
def pyUpper (c : Char) : Char :=
  if 97 ≤ c.toNat ∧ c.toNat ≤ 122 then Char.ofNat (c.toNat - 32)
  else if 224 ≤ c.toNat ∧ c.toNat ≤ 254 ∧ c.toNat ≠ 247 then Char.ofNat (c.toNat - 32)
  else c

/-- Python `str.strip()` (strip whitespace from both ends). -/
def pyStrip (s : List Char) : List Char :=
  ((s.dropWhile isPySpace).reverse.dropWhile isPySpace).reverse

/-- `needle` occurs at the start of `hay`. -/
def isSubAt : List Char → List Char → Bool
  | [], _ => true
  | _ :: _, [] => false
  | a :: as, b :: bs => a == b && isSubAt as bs

/-- Python substring membership `needle in hay`. -/
def containsSub (needle : List Char) : List Char → Bool
  | [] => isSubAt needle []
  | hay@(_ :: rest) => isSubAt needle hay || containsSub needle rest

/-- Python `text.split('\n')` (always returns at least one piece). -/
def splitLines : List Char → List (List Char)
  | [] => [[]]
  | c :: rest =>
    if c = '\n' then [] :: splitLines rest
    else
      match splitLines rest with
      | l :: ls => (c :: l) :: ls
      | [] => [[c]]

/-- Python exceptions distinguished by the embedded code. -/
inductive PyExc where
  | valueError
  | typeError
  | attributeError
  | otherError
deriving DecidableEq, Repr

instance exceptDecEq {ε α : Type} [DecidableEq ε] [DecidableEq α] :
    DecidableEq (Except ε α) := fun x y =>
  match x, y with
  | .ok a, .ok b =>
    if h : a = b then isTrue (by rw [h])
    else isFalse (fun hc => h (Except.ok.inj hc))
  | .error a, .error b =>
    if h : a = b then isTrue (by rw [h])
    else isFalse (fun hc => h (Except.error.inj hc))
  | .ok _, .error _ => isFalse (fun hc => Except.noConfusion hc)
  | .error _, .ok _ => isFalse (fun hc => Except.noConfusion hc)

/-! ## `validate_rut` (src/src/validation.py, lines 16–35)

```python
def validate_rut(rut: str) -> bool:
    rut = rut.replace(".", "").replace("-", "").upper()
    if not re.match(r'^\d{1,8}[0-9K]$', rut):
        return False
    body, dv = rut[:-1], rut[-1]
    sum = 0
    mul = 2
    for char in reversed(body):
        sum += int(char) * mul
        mul = mul + 1 if mul < 7 else 2
    mod = sum % 11
    calc_dv = 11 - mod if mod != 0 else 0
    calc_dv = 'K' if calc_dv == 10 else str(calc_dv)
    return calc_dv == dv
```
-/

/-- Python `int(char)` on a single character: the digit's value, or a
`ValueError` for any non-digit (in particular `int('K')` raises). -/
def pyIntChar (c : Char) : Except PyExc Nat :=
  if isDigitC c then .ok (digitVal c) else .error .valueError

/-- The weighted sum of the loop in `validate_rut`: characters already reversed,
multiplier starts at `mul` and cycles 2,3,4,5,6,7,2,… . Iteration stops with a
`ValueError` at the first non-digit character, exactly as Python's
`int(char)` does. -/
def rutSum : List Char → Nat → Except PyExc Nat
  | [], _ => .ok 0
  | c :: cs, mul =>
    match pyIntChar c with
    | .ok d =>
      match rutSum cs (if mul < 7 then mul + 1 else 2) with
      | .ok s => .ok (d * mul + s)
      | .error e => .error e
    | .error e => .error e

/-- The check digit the loop of `validate_rut` computes for a character body
(propagating the `ValueError` of `int(char)` on a non-digit body character). -/
def calc_dv (body : List Char) : Except PyExc Char :=
  match rutSum body.reverse 2 with
  | .error e => .error e
  | .ok s =>
    let m := s % 11
    let cd := if m ≠ 0 then 11 - m else 0
    .ok (if cd = 10 then 'K' else digitChar cd)

/-- Check-digit character class `[0-9K]` of the RUT regex. -/
def isDvChar (c : Char) : Bool := isDigitC c || c == 'K'

/-- `re.match(r'^\d{1,8}[0-9K]$', s)` without the trailing-newline case of `$`:
1–8 digits followed by one `[0-9K]` character, nothing else. -/
def rutMatchCore (s : List Char) : Bool :=
  decide (2 ≤ s.length) && decide (s.length ≤ 9) &&
    s.dropLast.all isDigitC &&
    (match s.getLast? with
     | some c => isDvChar c
     | none => false)

/-- `re.match(r'^\d{1,8}[0-9K]$', s)`: Python's `$` also matches just before a
single newline at the end of the string. -/
def rutMatch (s : List Char) : Bool :=
  rutMatchCore s ||
    (match s.getLast? with
     | some c => c == '\n' && rutMatchCore s.dropLast
     | none => false)

/-- `validate_rut` (src/src/validation.py). Because Python's `$` also matches
just before a trailing newline, a string such as `"1K\n"` passes the regex with
`body = rut[:-1] = "1K"`, and the loop's `int('K')` then raises a `ValueError`
that propagates out of `validate_rut`; the embedding returns it as
`.error .valueError`. -/
def validate_rut (rut : List Char) : Except PyExc Bool :=
  let r := ((rut.filter fun c => !(c == '.' || c == '-')).map pyUpper)
  if rutMatch r then
    match r.getLast? with
    | some dv =>
      match calc_dv r.dropLast with
      | .ok cd => .ok (cd == dv)
      | .error e => .error e
    | none => .ok false
  else .ok false

/-! Specification-side formulation of the modulo-11 check digit, following the
claim's words: body digits taken reversed, multiplied by a weight sequence
cycling 2..7, summed, `11 − (sum mod 11)` with `11 → 0` and `10 → 'K'`. -/

/-- Weighted sum over digit values with weights cycling 2..7. -/
def specSum : List Nat → Nat → Nat
  | [], _ => 0
  | d :: ds, w => d * w + specSum ds (if w < 7 then w + 1 else 2)

/-- The correct Chilean check digit for a digit body, per the claim. -/
def dvOfBody (ds : List Nat) : Char :=
  let m := specSum ds.reverse 2 % 11
  let cd := if m ≠ 0 then 11 - m else 0
  if cd = 10 then 'K' else digitChar cd

example : validate_rut ("12345678-5".toList) = .ok true := by decide
example : validate_rut ("12345678-4".toList) = .ok false := by decide
example : validate_rut ("12.345.678-5".toList) = .ok true := by decide
example : validate_rut ("1K\n".toList) = .error .valueError := by decide
example : dvOfBody [1,2,3,4,5,6,7,8] = '5' := by decide

/-! ### Helper lemmas for `validate_rut` -/

lemma filter_eq_self_of {α} (p : α → Bool) (l : List α) (h : ∀ x ∈ l, p x = true) :
    l.filter p = l := by
  induction l with
  | nil => rfl
  | cons a as ih =>
    simp only [List.filter, h a (by simp)]
    exact congrArg (a :: ·) (ih fun x hx => h x (by simp [hx]))

lemma map_eq_self_of {α} (f : α → α) (l : List α) (h : ∀ x ∈ l, f x = x) :
    l.map f = l := by
  induction l with
  | nil => rfl
  | cons a as ih =>
    simp only [List.map_cons, h a (by simp)]
    exact congrArg (a :: ·) (ih fun x hx => h x (by simp [hx]))

lemma digitChar_upper {d : Nat} (h : d < 10) : pyUpper (digitChar d) = digitChar d := by
  interval_cases d <;> decide

lemma digitChar_isDigit {d : Nat} (h : d < 10) : isDigitC (digitChar d) = true := by
  interval_cases d <;> decide

lemma digitChar_val {d : Nat} (h : d < 10) : digitVal (digitChar d) = d := by
  interval_cases d <;> decide

lemma digitChar_notSep {d : Nat} (h : d < 10) :
    (digitChar d == '.' || digitChar d == '-') = false := by
  interval_cases d <;> decide

lemma isDvChar_elim {c : Char} (hc : isDvChar c = true) :
    (48 ≤ c.toNat ∧ c.toNat ≤ 57) ∨ c = 'K' := by
  simp only [isDvChar, isDigitC, Bool.or_eq_true, Bool.and_eq_true,
    decide_eq_true_eq, beq_iff_eq] at hc
  exact hc

lemma dvChar_upper {c : Char} (hc : isDvChar c = true) : pyUpper c = c := by
  rcases isDvChar_elim hc with h | h
  · unfold pyUpper
    rw [if_neg (by omega), if_neg (by omega)]
  · subst h; decide

lemma dvChar_notSep {c : Char} (hc : isDvChar c = true) :
    (c == '.' || c == '-') = false := by
  rcases isDvChar_elim hc with h | h
  · have h1 : c ≠ '.' := by
      intro he; rw [he] at h; revert h; decide
    have h2 : c ≠ '-' := by
      intro he; rw [he] at h; revert h; decide
    simp [h1, h2]
  · subst h; decide

lemma isDvChar_dvAux (cd : Nat) (h : cd ≤ 10) :
    isDvChar (if cd = 10 then 'K' else digitChar cd) = true := by
  by_cases h10 : cd = 10
  · subst h10; decide
  · rw [if_neg h10]
    simp [isDvChar, digitChar_isDigit (show cd < 10 by omega)]

lemma isDvChar_dvOfBody (ds : List Nat) : isDvChar (dvOfBody ds) = true := by
  have hm11 : specSum ds.reverse 2 % 11 < 11 := Nat.mod_lt _ (by norm_num)
  simp only [dvOfBody]
  exact isDvChar_dvAux _ (by split <;> omega)

lemma pyIntChar_digitChar {d : Nat} (h : d < 10) : pyIntChar (digitChar d) = .ok d := by
  unfold pyIntChar
  rw [digitChar_isDigit h, if_pos rfl, digitChar_val h]

lemma rutSum_map (ds : List Nat) (h : ∀ d ∈ ds, d < 10) :
    ∀ mul, rutSum (ds.map digitChar) mul = .ok (specSum ds mul) := by
  induction ds with
  | nil => intro _; rfl
  | cons d ds ih =>
    intro mul
    simp only [List.map_cons, rutSum, specSum]
    rw [pyIntChar_digitChar (h d (by simp)), ih (fun x hx => h x (by simp [hx]))]

lemma calc_dv_map (ds : List Nat) (h : ∀ d ∈ ds, d < 10) :
    calc_dv (ds.map digitChar) = .ok (dvOfBody ds) := by
  unfold calc_dv dvOfBody
  have hrev : (ds.map digitChar).reverse = ds.reverse.map digitChar := by
    rw [List.map_reverse]
  rw [hrev, rutSum_map ds.reverse (fun d hd => h d (List.mem_reverse.mp hd))]

lemma validate_rut_eval (ds : List Nat) (hne : ds ≠ []) (hlen : ds.length ≤ 8)
    (hd : ∀ d ∈ ds, d < 10) (c : Char) (hc : isDvChar c = true) :
    validate_rut (ds.map digitChar ++ [c]) = .ok (dvOfBody ds == c) := by
  have hmem : ∀ x ∈ ds.map digitChar ++ [c], (!(x == '.' || x == '-')) = true := by
    intro x hx
    rcases List.mem_append.mp hx with hx | hx
    · obtain ⟨d, hdm, rfl⟩ := List.mem_map.mp hx
      rw [digitChar_notSep (hd d hdm)]; rfl
    · rw [List.mem_singleton.mp hx, dvChar_notSep hc]; rfl
  have hup : ∀ x ∈ ds.map digitChar ++ [c], pyUpper x = x := by
    intro x hx
    rcases List.mem_append.mp hx with hx | hx
    · obtain ⟨d, hdm, rfl⟩ := List.mem_map.mp hx
      exact digitChar_upper (hd d hdm)
    · rw [List.mem_singleton.mp hx]; exact dvChar_upper hc
  have hfix : ((ds.map digitChar ++ [c]).filter fun x => !(x == '.' || x == '-')).map pyUpper
      = ds.map digitChar ++ [c] := by
    rw [filter_eq_self_of _ _ hmem, map_eq_self_of _ _ hup]
  have hlen1 : 1 ≤ ds.length := List.length_pos.mpr hne
  have hcore : rutMatchCore (ds.map digitChar ++ [c]) = true := by
    unfold rutMatchCore
    rw [List.dropLast_concat, List.getLast?_concat]
    have hall : (ds.map digitChar).all isDigitC = true := by
      rw [List.all_eq_true]
      intro x hx
      obtain ⟨d, hdm, rfl⟩ := List.mem_map.mp hx
      exact digitChar_isDigit (hd d hdm)
    simp [hall, hc, List.length_append]
    constructor <;> omega
  have hmatch : rutMatch (ds.map digitChar ++ [c]) = true := by
    unfold rutMatch
    rw [hcore]; rfl
  unfold validate_rut
  simp only [hfix, hmatch, if_pos, List.getLast?_concat, List.dropLast_concat,
    calc_dv_map ds hd]

/-- **C1.** For every RUT body of 1–8 digits, appending the check digit computed
by the Chilean modulo-11 algorithm (body digits reversed, weights cycling 2..7,
`11 − (sum mod 11)`, `11 → 0`, `10 → 'K'`) makes `validate_rut` return `true`;
appending any other check-digit character from `[0-9K]` makes it return
`false` (on this digits-plus-check-digit domain the function returns normally,
so the result is the `.ok` value). -/
theorem validate_rut_checkDigit (ds : List Nat) (hne : ds ≠ []) (hlen : ds.length ≤ 8)
    (hd : ∀ d ∈ ds, d < 10) :
    validate_rut (ds.map digitChar ++ [dvOfBody ds]) = .ok true ∧
    ∀ c : Char, isDvChar c = true → c ≠ dvOfBody ds →
      validate_rut (ds.map digitChar ++ [c]) = .ok false := by
  constructor
  · rw [validate_rut_eval ds hne hlen hd _ (isDvChar_dvOfBody ds)]
    rw [beq_self_eq_true]
  · intro c hc hne'
    rw [validate_rut_eval ds hne hlen hd c hc]
    rw [beq_eq_false_iff_ne.mpr (fun h => hne' h.symm)]

/-- Witness for C1 at the concrete body `12345678` (check digit `'5'`). -/
theorem validate_rut_checkDigit_witness :
    validate_rut ([1,2,3,4,5,6,7,8].map digitChar ++ [dvOfBody [1,2,3,4,5,6,7,8]]) = .ok true :=
  (validate_rut_checkDigit [1,2,3,4,5,6,7,8] (by decide) (by decide)
    (by intro d hd; fin_cases hd <;> decide)).1

/-! ## `estimate_ocr_quality` (src/src/extraction.py, lines 24–60)

```python
def estimate_ocr_quality(text: str) -> float:
    if not text or len(text.strip()) < 50:
        return 0.0
    text_lower = text.lower()
    keywords = ['factura', 'rut', 'fecha', 'total', 'neto', 'iva', 'cliente', 'emisor',
                'domicilio', 'descripción', 'cantidad', 'precio', 'monto', 'pago']
    keyword_count = sum(1 for kw in keywords if kw in text_lower)
    keyword_score = keyword_count / len(keywords)
    strange_chars = len([c for c in text if ord(c) > 127 and c not in 'áéíóúñüÁÉÍÓÚÑÜ'])
    strange_ratio = min(1.0, strange_chars / max(len(text), 1) * 10)
    broken_lines = sum(1 for line in text.split('\n')
                       if len([c for c in line if not c.isalnum()]) / max(len(line), 1) > 0.5)
    broken_ratio = min(1.0, broken_lines / max(len(text.split('\n')), 1))
    quality = (keyword_score * 0.5) - (strange_ratio * 0.25) - (broken_ratio * 0.25)
    return max(0.0, min(1.0, quality))
```

`float` arithmetic is modelled exactly over `ℚ`.
-/

/-- Python `max(a, b)` on numbers (an executable form that the kernel can
evaluate, unlike the lattice `max` of `ℚ`). -/
def pyMax (a b : ℚ) : ℚ := if b ≤ a then a else b

/-- Python `min(a, b)` on numbers. -/
def pyMin (a b : ℚ) : ℚ := if a ≤ b then a else b

/-- Python `max(a, b)` on machine integers (kernel-evaluable form). -/
def pyMaxN (a b : Nat) : Nat := if b ≤ a then a else b

lemma pyMaxN_eq (a b : Nat) : pyMaxN a b = max a b := by
  unfold pyMaxN
  rcases Nat.le_total a b with h | h
  · rcases Nat.eq_or_lt_of_le h with rfl | hlt
    · simp
    · rw [if_neg (Nat.not_le.mpr hlt), Nat.max_eq_right h]
  · rw [if_pos h, Nat.max_eq_left h]

lemma pyMax_eq (a b : ℚ) : pyMax a b = max a b := by
  unfold pyMax
  rcases le_total a b with h | h
  · rcases eq_or_lt_of_le h with rfl | hlt
    · simp
    · rw [if_neg (not_le.mpr hlt), max_eq_right h]
  · rw [if_pos h, max_eq_left h]

lemma pyMin_eq (a b : ℚ) : pyMin a b = min a b := by
  unfold pyMin
  rcases le_total a b with h | h
  · rw [if_pos h, min_eq_left h]
  · rcases eq_or_lt_of_le h with rfl | hlt
    · simp
    · rw [if_neg (not_le.mpr hlt), min_eq_right h]

/-- The invoice keyword list of `estimate_ocr_quality`. -/
def keywords : List (List Char) :=
  ["factura".toList, "rut".toList, "fecha".toList, "total".toList, "neto".toList,
   "iva".toList, "cliente".toList, "emisor".toList, "domicilio".toList,
   "descripción".toList, "cantidad".toList, "precio".toList, "monto".toList,
   "pago".toList]

/-- Python `c.isalnum()`, modelled on ASCII digits/letters and Latin-1 letters. -/
def pyIsAlnum (c : Char) : Bool :=
  (48 ≤ c.toNat && c.toNat ≤ 57) || (65 ≤ c.toNat && c.toNat ≤ 90) ||
    (97 ≤ c.toNat && c.toNat ≤ 122) ||
    (192 ≤ c.toNat && c.toNat ≤ 255 && c.toNat ≠ 215 && c.toNat ≠ 247)

/-- The accented-Spanish exception set `'áéíóúñüÁÉÍÓÚÑÜ'`. -/
def spanishAccents : List Char := "áéíóúñüÁÉÍÓÚÑÜ".toList

/-- `ord(c) > 127 and c not in 'áéíóúñüÁÉÍÓÚÑÜ'`. -/
def isStrangeChar (c : Char) : Bool :=
  127 < c.toNat && !(spanishAccents.contains c)

/-- `keyword_count` of `estimate_ocr_quality`. -/
def kwCountOf (text : List Char) : Nat :=
  (keywords.filter fun kw => containsSub kw (text.map pyLower)).length

/-- `strange_chars` of `estimate_ocr_quality`. -/
def strangeCount (text : List Char) : Nat :=
  (text.filter isStrangeChar).length

/-- Number of non-alphanumeric characters of a string (the notion of
"non-alphanumeric noise" in testable property 3 of the spec). -/
def nonAlnumCount (text : List Char) : Nat :=
  (text.filter fun c => !(pyIsAlnum c)).length

/-- The per-line test of `broken_lines`. -/
def isBrokenLine (l : List Char) : Bool :=
  decide ((1 : ℚ)/2 < ((l.filter fun c => !(pyIsAlnum c)).length : ℚ) / ((pyMaxN l.length 1 : Nat) : ℚ))

/-- `broken_lines` of `estimate_ocr_quality`. -/
def brokenCount (text : List Char) : Nat :=
  ((splitLines text).filter isBrokenLine).length

/-- `broken_lines / max(len(lines), 1)` (the value fed to `min(1.0, ·)`). -/
def brokenRatioOf (text : List Char) : ℚ :=
  (brokenCount text : ℚ) / (((pyMaxN (splitLines text).length 1 : Nat)) : ℚ)

/-- `strange_ratio` of `estimate_ocr_quality`. -/
def strangeRatioOf (text : List Char) : ℚ :=
  pyMin 1 ((strangeCount text : ℚ) / ((pyMaxN text.length 1 : Nat) : ℚ) * 10)

/-- `estimate_ocr_quality` (src/src/extraction.py). -/
def estimate_ocr_quality (text : List Char) : ℚ :=
  if text = [] ∨ (pyStrip text).length < 50 then 0
  else
    pyMax 0 (pyMin 1 ((kwCountOf text : ℚ) / (keywords.length : ℚ) * (1/2)
      - strangeRatioOf text * (1/4) - pyMin 1 (brokenRatioOf text) * (1/4)))

example : estimate_ocr_quality [] = 0 := by decide

/-- The noisier of the two C8 strings: 8 keywords packed into 35 letters,
followed by 15 hyphens (non-alphanumeric, non-whitespace noise). -/
def qualityCexNoisy : List Char :=
  ("rutivanetototalfechapagomontoprecio---------------").toList

/-- The cleaner of the two C8 strings: the same 35 letters followed by 15
spaces, so that `len(text.strip()) < 50` and the short-text guard fires. -/
def qualityCexClean : List Char :=
  ("rutivanetototalfechapagomontoprecio               ").toList

example : estimate_ocr_quality qualityCexNoisy = 2/7 := by with_unfolding_all decide
example : estimate_ocr_quality qualityCexClean = 0 := by with_unfolding_all decide
example : kwCountOf qualityCexNoisy = 8 ∧ kwCountOf qualityCexClean = 8 := by
  with_unfolding_all decide

/-- **C8, counterexample.** Two strings of equal length (50): the noisy one has
the same keyword count, at least as many strange characters, at least as many
non-alphanumeric characters and at least as large a broken-line ratio as the
clean one — yet it scores *strictly higher*, because the clean string's
trailing whitespace makes `len(text.strip()) < 50` fire the short-text guard
and zero its score. -/
theorem estimate_quality_monotone_cex :
    qualityCexNoisy.length = qualityCexClean.length ∧
    kwCountOf qualityCexNoisy ≤ kwCountOf qualityCexClean ∧
    strangeCount qualityCexClean ≤ strangeCount qualityCexNoisy ∧
    nonAlnumCount qualityCexClean ≤ nonAlnumCount qualityCexNoisy ∧
    brokenRatioOf qualityCexClean ≤ brokenRatioOf qualityCexNoisy ∧
    estimate_ocr_quality qualityCexClean < estimate_ocr_quality qualityCexNoisy := by
  with_unfolding_all decide

/-- **C8, amended.** The quality estimator is monotone with respect to text
cleanliness — equal length, no more keywords, at least as many strange
characters, at least as large a broken-line ratio — *provided* the cleaner
string does not fire the short-text guard while the noisier one escapes it
(i.e. either the noisy string's stripped length is below 50, or the clean
string's stripped length is at least 50). -/
theorem estimate_quality_monotone_amended (a b : List Char)
    (hlen : a.length = b.length)
    (hkw : kwCountOf a ≤ kwCountOf b)
    (hstr : strangeCount b ≤ strangeCount a)
    (hbr : brokenRatioOf b ≤ brokenRatioOf a)
    (hguard : (pyStrip a).length < 50 ∨ 50 ≤ (pyStrip b).length) :
    estimate_ocr_quality a ≤ estimate_ocr_quality b := by
  unfold estimate_ocr_quality
  by_cases ha : a = [] ∨ (pyStrip a).length < 50
  · rw [if_pos ha]
    split
    · exact le_refl 0
    · rw [pyMax_eq]; exact le_max_left 0 _
  · push_neg at ha
    have hb : ¬(b = [] ∨ (pyStrip b).length < 50) := by
      rcases hguard with h | h
      · exact absurd h (Nat.not_lt.mpr ha.2)
      · push_neg
        refine ⟨fun hbe => ?_, by omega⟩
        rw [hbe] at h
        revert h; decide
    rw [if_neg (by push_neg; exact ha), if_neg hb,
      pyMax_eq, pyMax_eq, pyMin_eq, pyMin_eq, pyMin_eq, pyMin_eq]
    apply max_le_max le_rfl
    apply min_le_min le_rfl
    have hsr : strangeRatioOf b ≤ strangeRatioOf a := by
      unfold strangeRatioOf
      rw [pyMin_eq, pyMin_eq, ← hlen]
      apply min_le_min le_rfl
      have hd : (0:ℚ) < ((pyMaxN a.length 1 : Nat) : ℚ) := by
        rw [pyMaxN_eq]
        exact_mod_cast Nat.lt_of_lt_of_le Nat.zero_lt_one (le_max_right _ _)
      apply mul_le_mul_of_nonneg_right _ (by norm_num : (0:ℚ) ≤ 10)
      exact (div_le_div_right hd).mpr (by exact_mod_cast hstr)
    have hbrm : min 1 (brokenRatioOf b) ≤ min 1 (brokenRatioOf a) :=
      min_le_min le_rfl hbr
    have hkw' : (kwCountOf a : ℚ) ≤ (kwCountOf b : ℚ) := by exact_mod_cast hkw
    have hkl : (0:ℚ) < (keywords.length : ℚ) := by norm_num [keywords]
    have hdiv : (kwCountOf a : ℚ) / (keywords.length : ℚ)
        ≤ (kwCountOf b : ℚ) / (keywords.length : ℚ) :=
      (div_le_div_right hkl).mpr hkw'
    linarith [hsr, hbrm, hdiv]

/-- Witness for the amended C8 at a concrete input (a 50-character string,
compared with itself; all hypotheses hold reflexively). -/
theorem estimate_quality_monotone_amended_witness :
    estimate_ocr_quality (List.replicate 50 'f') ≤ estimate_ocr_quality (List.replicate 50 'f') :=
  estimate_quality_monotone_amended _ _ rfl (le_refl _) (le_refl _) (le_refl _)
    (Or.inr (by decide))

/-! ## `ocr_from_pdf` (src/src/extraction.py, lines 226–286)

The per-page OCR results are abstracted: for each rendered page, `tier1` is
the outcome of the advanced-preprocessing OCR (`preprocess_image_advanced` +
tesseract; an `Except.error` models an exception raised inside the
OpenCV/tesseract tier), and `tier2` is the text of the basic PIL tier
(`preprocess_image` + tesseract).  The loop below is the literal control flow
of the Python `for page in pdf.pages` body:

```python
text = ""; method = "ocr_basic"; quality_score = 0.0
for page in pages:
    if use_advanced_preprocessing:
        try:
            page_text = <tier 1 OCR>
            quality = estimate_ocr_quality(page_text)
            if quality < 0.2:
                page_text = <tier 2 OCR>; method = "ocr_basic"
            else:
                method = "ocr_advanced"
            quality_score = max(quality_score, quality)
        except Exception:
            page_text = <tier 2 OCR>; method = "ocr_basic"
    else:
        page_text = <tier 2 OCR>; method = "ocr_basic"
    text += page_text + "\n"
return text, method, quality_score
```
-/

/-- The `method` strings of the extraction module. -/
inductive ExtractionMethod where
  | structured
  | ocr_basic
  | ocr_advanced
deriving DecidableEq, Repr

/-- One rendered PDF page, abstracted by its two OCR-tier outcomes. -/
structure OcrPage where
  tier1 : Except PyExc (List Char)
  tier2 : List Char

/-- The page loop of `ocr_from_pdf`; the accumulator is
`(text, method, quality_score)`. -/
def ocrLoop (advanced : Bool) :
    List OcrPage → List Char × ExtractionMethod × ℚ → List Char × ExtractionMethod × ℚ
  | [], acc => acc
  | p :: rest, (text, meth, qs) =>
    if advanced then
      match p.tier1 with
      | .ok t1 =>
        let q := estimate_ocr_quality t1
        if q < 1/5 then
          ocrLoop advanced rest (text ++ p.tier2 ++ ['\n'], .ocr_basic, pyMax qs q)
        else
          ocrLoop advanced rest (text ++ t1 ++ ['\n'], .ocr_advanced, pyMax qs q)
      | .error _ => ocrLoop advanced rest (text ++ p.tier2 ++ ['\n'], .ocr_basic, qs)
    else ocrLoop advanced rest (text ++ p.tier2 ++ ['\n'], meth, qs)

/-- `ocr_from_pdf` (src/src/extraction.py): initial accumulator
`("", "ocr_basic", 0.0)`, then the page loop. -/
def ocr_from_pdf (pages : List OcrPage) (advanced : Bool) :
    List Char × ExtractionMethod × ℚ :=
  ocrLoop advanced pages ([], .ocr_basic, 0)

lemma ocrLoop_fst_fallback (pages : List OcrPage)
    (h : ∀ p ∈ pages, ∃ t, p.tier1 = .ok t ∧ estimate_ocr_quality t < 1/5) :
    ∀ text meth qs, (ocrLoop true pages (text, meth, qs)).1
      = text ++ (pages.map fun p => p.tier2 ++ ['\n']).join := by
  induction pages with
  | nil => intro text meth qs; simp [ocrLoop]
  | cons p rest ih =>
    intro text meth qs
    obtain ⟨t, ht, hq⟩ := h p (by simp)
    simp only [ocrLoop, ht, if_pos hq, ite_true]
    rw [ih (fun x hx => h x (by simp [hx]))]
    simp [List.append_assoc]

lemma ocrLoop_fst_plain (pages : List OcrPage) :
    ∀ text meth qs, (ocrLoop false pages (text, meth, qs)).1
      = text ++ (pages.map fun p => p.tier2 ++ ['\n']).join := by
  induction pages with
  | nil => intro text meth qs; simp [ocrLoop]
  | cons p rest ih =>
    intro text meth qs
    simp only [ocrLoop]
    rw [if_neg (by simp)]
    rw [ih]
    simp [List.append_assoc]

lemma ocrLoop_method_fallback (pages : List OcrPage)
    (h : ∀ p ∈ pages, ∃ t, p.tier1 = .ok t ∧ estimate_ocr_quality t < 1/5) :
    ∀ text qs, (ocrLoop true pages (text, .ocr_basic, qs)).2.1 = .ocr_basic := by
  induction pages with
  | nil => intro text qs; rfl
  | cons p rest ih =>
    intro text qs
    obtain ⟨t, ht, hq⟩ := h p (by simp)
    simp only [ocrLoop, ht, if_pos hq, ite_true]
    exact ih (fun x hx => h x (by simp [hx])) _ _

/-- **C4.** If every page's tier-1 (advanced OpenCV preprocessing) OCR output
scores below the 0.2 quality threshold, then `ocr_from_pdf` with advanced
preprocessing returns `method = ocr_basic`, and its text is exactly the text
the basic-PIL tier produces for the document (i.e. the text of
`ocr_from_pdf` with `use_advanced_preprocessing=False`). -/
theorem ocr_fallback_correct (pages : List OcrPage)
    (h : ∀ p ∈ pages, ∃ t, p.tier1 = .ok t ∧ estimate_ocr_quality t < 1/5) :
    (ocr_from_pdf pages true).2.1 = .ocr_basic ∧
    (ocr_from_pdf pages true).1 = (ocr_from_pdf pages false).1 := by
  constructor
  · exact ocrLoop_method_fallback pages h [] 0
  · rw [ocr_from_pdf, ocr_from_pdf, ocrLoop_fst_fallback pages h, ocrLoop_fst_plain pages]

/-- The single page used by the C4 witness: tier-1 output `"x"` (quality 0,
below the threshold), tier-2 output `"hola"`. -/
def ocrWitnessPage : OcrPage :=
  ⟨.ok ("x").toList, ("hola").toList⟩

/-- Witness for C4 at a concrete one-page document whose tier-1 text scores 0. -/
theorem ocr_fallback_correct_witness :
    (ocr_from_pdf [ocrWitnessPage] true).2.1 = .ocr_basic ∧
    (ocr_from_pdf [ocrWitnessPage] true).1 = (ocr_from_pdf [ocrWitnessPage] false).1 :=
  ocr_fallback_correct [ocrWitnessPage] (by
    intro p hp
    rw [List.mem_singleton.mp hp]
    exact ⟨("x").toList, rfl, by with_unfolding_all decide⟩)

/-! ## `is_scanned_pdf` (backend/services/pdf_processor_service.py, lines 29–68)

```python
try:
    ... reader = PyPDF2.PdfReader(file)
    if len(reader.pages) > 0:
        page = reader.pages[0]
        text = page.extract_text()
        if text is None or len(text.strip()) < 10:
            return True
    return False
except Exception:
    return True   # Asumir escaneado en caso de error
```

The PyPDF2 interaction is abstracted into `PdfDecode`: `failure` models any
exception raised while decoding/extracting (caught by the `except`, so the
function still returns a `Bool` — it never propagates an exception), and
`doc ts` models a successfully decoded PDF whose pages yield the extraction
results `ts` (`none` = Python `None`). -/
inductive PdfDecode where
  | failure
  | doc (pageTexts : List (Option (List Char)))
deriving DecidableEq

/-- `PDFProcessorService.is_scanned_pdf`. -/
def is_scanned_pdf : PdfDecode → Bool
  | .failure => true
  | .doc pages =>
    match pages with
    | [] => false
    | t :: _ =>
      match t with
      | none => true
      | some txt => if (pyStrip txt).length < 10 then true else false

/-- **C5.** The classifier returns `scanned` (`true`) exactly when the PDF
cannot be decoded, or the first page's extracted text is `None`, or the first
page's trimmed text has fewer than 10 characters; in every other case
(including a decodable zero-page PDF) it returns `digital` (`false`).  The
function is total on `PdfDecode` — a decode failure is absorbed by the
`except` branch and never surfaces as an exception. -/
theorem is_scanned_pdf_spec (x : PdfDecode) :
    is_scanned_pdf x = true ↔
      (x = .failure ∨
       (∃ rest, x = .doc (none :: rest)) ∨
       (∃ t rest, x = .doc (some t :: rest) ∧ (pyStrip t).length < 10)) := by
  cases x with
  | failure => simp [is_scanned_pdf]
  | doc pages =>
    cases pages with
    | nil => simp [is_scanned_pdf]
    | cons t rest =>
      cases t with
      | none =>
        simp only [is_scanned_pdf]
        constructor
        · intro _; exact Or.inr (Or.inl ⟨rest, rfl⟩)
        · intro _; trivial
      | some txt =>
        simp only [is_scanned_pdf]
        by_cases h : (pyStrip txt).length < 10
        · rw [if_pos h]
          constructor
          · intro _; exact Or.inr (Or.inr ⟨txt, rest, rfl, h⟩)
          · intro _; trivial
        · rw [if_neg h]
          constructor
          · intro hc; exact absurd hc (by simp)
          · rintro (hc | ⟨r, hc⟩ | ⟨t', r, hc, hlen⟩)
            · exact absurd hc (by simp)
            · exact absurd hc (by simp)
            · obtain ⟨rfl, rfl⟩ : txt = t' ∧ rest = r := by
                injection hc with hc'
                injection hc' with h1 h2
                exact ⟨Option.some.inj h1, h2⟩
              exact absurd hlen h

/-! ## `validate_date` (src/src/validation.py, lines 37–65)

```python
def validate_date(date_str: str) -> bool:
    try:
        datetime.strptime(date_str, "%d-%m-%Y")
        return True
    except ValueError:
        pass
    date_str_lower = date_str.lower().strip()
    match = re.match(r'(\d{1,2}) (de )?([a-z]+) (de )?(\d{4})', date_str_lower)
    if match:
        day, _, month_name, _, year = match.groups()
        month = MESES_ESPANOL.get(month_name)
        if month:
            try:
                datetime(int(year), month, int(day))
                return True
            except ValueError:
                pass
    return False
```

`strptime("%d-%m-%Y")` is embedded with CPython's regexes for the directives
(`%d` = `3[01]|[12]\d|0[1-9]|[1-9]`, `%m` = `1[0-2]|0[1-9]|[1-9]`,
`%Y` = `\d{4}`), a full-string match, and the `datetime` constructor's
range/calendar validation. -/

/-- Two ASCII digits. -/
def parse2Digits : List Char → Option (Nat × List Char)
  | c1 :: c2 :: rest =>
    if isDigitC c1 && isDigitC c2 then some (digitVal c1 * 10 + digitVal c2, rest) else none
  | _ => none

/-- Exactly four ASCII digits (the `%Y` / `\d{4}` directive). -/
def parse4Digits : List Char → Option (Nat × List Char)
  | a :: b :: c :: d :: rest =>
    if isDigitC a && isDigitC b && isDigitC c && isDigitC d then
      some (((digitVal a * 10 + digitVal b) * 10 + digitVal c) * 10 + digitVal d, rest)
    else none
  | _ => none

/-- Gregorian leap year, as `datetime` uses it. -/
def isLeapYear (y : Nat) : Bool := y % 4 == 0 && (y % 100 != 0 || y % 400 == 0)

/-- Days in a month, as `datetime` uses it. -/
def daysInMonth (y m : Nat) : Nat :=
  if m = 2 then (if isLeapYear y then 29 else 28)
  else if m = 4 ∨ m = 6 ∨ m = 9 ∨ m = 11 then 30 else 31

/-- The `datetime(year, month, day)` constructor succeeds
(`MINYEAR = 1 ≤ year ≤ 9999 = MAXYEAR`, month and day in range). -/
def dateCtorOk (y m d : Nat) : Bool :=
  1 ≤ y && y ≤ 9999 && 1 ≤ m && m ≤ 12 && 1 ≤ d && d ≤ daysInMonth y m

/-- `-%Y$` tail of the `%d-%m-%Y` pattern: the whole string must be consumed. -/
def spAfterMonth (d m : Nat) : List Char → Option (Nat × Nat × Nat)
  | '-' :: rest =>
    match parse4Digits rest with
    | some (y, rest2) => if rest2 = [] then some (d, m, y) else none
    | none => none
  | _ => none

/-- `-%m` tail: two-digit month (`1[0-2]|0[1-9]`) with backtracking to the
one-digit alternative (`[1-9]`). -/
def spAfterDay (d : Nat) : List Char → Option (Nat × Nat × Nat)
  | '-' :: rest =>
    (match parse2Digits rest with
     | some (m, rest2) => if 1 ≤ m ∧ m ≤ 12 then spAfterMonth d m rest2 else none
     | none => none)
    <|>
    (match rest with
     | c :: rest2 => if isDigitC c ∧ c ≠ '0' then spAfterMonth d (digitVal c) rest2 else none
     | [] => none)
  | _ => none

/-- `datetime.strptime(s, "%d-%m-%Y")`'s regex phase: returns the matched
`(day, month, year)` or `none` (a `ValueError`). -/
def strptimeDMY (s : List Char) : Option (Nat × Nat × Nat) :=
  (match parse2Digits s with
   | some (d, rest) => if 1 ≤ d ∧ d ≤ 31 then spAfterDay d rest else none
   | none => none)
  <|>
  (match s with
   | c :: rest => if isDigitC c ∧ c ≠ '0' then spAfterDay (digitVal c) rest else none
   | [] => none)

/-- `MESES_ESPANOL` (src/src/validation.py, lines 11–14). -/
def mesesEspanol : List (List Char × Nat) :=
  [("enero".toList, 1), ("febrero".toList, 2), ("marzo".toList, 3), ("abril".toList, 4),
   ("mayo".toList, 5), ("junio".toList, 6), ("julio".toList, 7), ("agosto".toList, 8),
   ("septiembre".toList, 9), ("octubre".toList, 10), ("noviembre".toList, 11),
   ("diciembre".toList, 12)]

/-- `MESES_ESPANOL.get(name)`. -/
def lookupMes (name : List Char) : Option Nat :=
  match mesesEspanol.find? (fun p => p.1 == name) with
  | some p => some p.2
  | none => none

/-- `[a-z]` of the textual date regex (no IGNORECASE flag: ASCII lowercase). -/
def isAsciiLowerC (c : Char) : Bool := 97 ≤ c.toNat && c.toNat ≤ 122

/-- `(\d{4})` at the end of the textual pattern (`re.match` has no `$`:
trailing characters are allowed). -/
def txYear (s : List Char) : Option Nat :=
  match parse4Digits s with
  | some (y, _) => some y
  | none => none

/-- `(de )?(\d{4})` with the greedy optional group tried first. -/
def txOptDeYear (s : List Char) : Option Nat :=
  (match s with
   | 'd' :: 'e' :: ' ' :: rest => txYear rest
   | _ => none)
  <|> txYear s

/-- `([a-z]+) (de )?(\d{4})`: the letter group is maximal (the following
literal is a space, which `[a-z]` cannot match, so greediness is exact). -/
def txMonthYear (s : List Char) : Option (List Char × Nat) :=
  let m := s.takeWhile isAsciiLowerC
  if m.isEmpty then none
  else
    match s.drop m.length with
    | ' ' :: rest =>
      match txOptDeYear rest with
      | some y => some (m, y)
      | none => none
    | _ => none

/-- `(de )?([a-z]+) (de )?(\d{4})` with the greedy optional group tried first. -/
def txAfterDay (s : List Char) : Option (List Char × Nat) :=
  (match s with
   | 'd' :: 'e' :: ' ' :: rest => txMonthYear rest
   | _ => none)
  <|> txMonthYear s

/-- `re.match(r'(\d{1,2}) (de )?([a-z]+) (de )?(\d{4})', s)`: anchored at the
start, two-digit day tried before the one-digit alternative. -/
def txMatch (s : List Char) : Option (Nat × List Char × Nat) :=
  (match s with
   | c1 :: c2 :: ' ' :: rest =>
     if isDigitC c1 && isDigitC c2 then
       match txAfterDay rest with
       | some (m, y) => some (digitVal c1 * 10 + digitVal c2, m, y)
       | none => none
     else none
   | _ => none)
  <|>
  (match s with
   | c1 :: ' ' :: rest =>
     if isDigitC c1 then
       match txAfterDay rest with
       | some (m, y) => some (digitVal c1, m, y)
       | none => none
     else none
   | _ => none)

/-- `validate_date` (src/src/validation.py). -/
def validate_date (s : List Char) : Bool :=
  let numericOk :=
    match strptimeDMY s with
    | some (d, m, y) => dateCtorOk y m d
    | none => false
  if numericOk then true
  else
    match txMatch (pyStrip (s.map pyLower)) with
    | some (d, mname, y) =>
      match lookupMes mname with
      | some m => dateCtorOk y m d
      | none => false
    | none => false

example : validate_date ("26-07-2020".toList) = true := by decide
example : validate_date ("26 de Julio de 2020".toList) = true := by decide
example : validate_date ("26 Julio 2020".toList) = true := by decide
example : validate_date ("31-02-2020".toList) = false := by decide
example : validate_date ("26 de foo de 2020".toList) = false := by decide
example : validate_date ("6-7-2023".toList) = true := by decide

/-! ## `validate_invoice_data` (src/src/validation.py, lines 67–136)

The dynamic Python values a field can hold are modelled by `PyVal`
(`int` / `float` / `str`; a field that is missing from the dict or holds
`None` is modelled as `Option.none` in the record, which is exactly the
condition `field not in data or data[field] is None` of the completeness
check).  `float` is `ℚ`.  A `ValueError` raised by `int(...)`/`float(...)`
is caught by the function's `except ValueError` handler; a `TypeError` from
`datetime.strptime` on a non-string, or an `AttributeError` from
`.replace` on a non-string inside `validate_rut`, is *not* caught and
propagates (modelled as `Except.error`). -/

/-- A (non-`None`) Python value stored in an invoice-data field. -/
inductive PyVal where
  | vInt (n : ℤ)
  | vFloat (q : ℚ)
  | vStr (s : List Char)
deriving DecidableEq, Repr

/-- The invoice-data fields (including `rut_destinatario`, which
`extract_all` produces but `validate_invoice_data` never reads). -/
inductive FieldName where
  | numero_factura | fecha_emision | nombre_emisor | nombre_destinatario
  | rut_emisor | rut_destinatario | domicilio_emisor | domicilio_destinatario
  | descripcion_operaciones | monto_neto | iva_tipo | total
deriving DecidableEq, Repr

/-- `required_fields` (src/src/validation.py, lines 71–75). -/
def requiredFields : List FieldName :=
  [.numero_factura, .fecha_emision, .nombre_emisor, .nombre_destinatario,
   .rut_emisor, .domicilio_emisor, .domicilio_destinatario,
   .descripcion_operaciones, .monto_neto, .iva_tipo, .total]

/-- Keys of the `errors` dict: a field name, or the literal `'general'` key
used by the `except ValueError` handler. -/
inductive ErrKey where
  | fld (f : FieldName)
  | general
deriving DecidableEq, Repr

/-- The error messages of `validate_invoice_data`, with their interpolated
values as payloads. -/
inductive ErrMsg where
  | missing (f : FieldName)
  | numeroNotPositive
  | numeroNotCorrelative (expected : ℤ)
  | fechaInvalid
  | stringTooShort
  | rutInvalid
  | netoNotPositive
  | ivaOutOfRange
  | totalMismatch (expected : ℚ)
  | conversionError
deriving DecidableEq, Repr

/-- The `errors` dict: insertion-ordered association list. -/
abbrev ErrMap := List (ErrKey × ErrMsg)

/-- `errors[k] = v`: overwrite in place if the key exists, else append. -/
def setErr (m : ErrMap) (k : ErrKey) (v : ErrMsg) : ErrMap :=
  if m.any (fun p => p.1 == k) then
    m.map (fun p => if p.1 == k then (k, v) else p)
  else m ++ [(k, v)]

/-- `errors.get(k)`. -/
def findErr : ErrMap → ErrKey → Option ErrMsg
  | [], _ => none
  | p :: rest, k => if p.1 == k then some p.2 else findErr rest k

/-- A digit run as `int()`/`float()` accept it: digits with single
underscores strictly between digits; returns the value, the number of
digits consumed, and the rest. -/
def digitRunUAux (acc nd : Nat) : List Char → Nat × Nat × List Char
  | [] => (acc, nd, [])
  | '_' :: c :: rest =>
    if isDigitC c then digitRunUAux (acc * 10 + digitVal c) (nd + 1) rest
    else (acc, nd, '_' :: c :: rest)
  | ['_'] => (acc, nd, ['_'])
  | c :: rest =>
    if isDigitC c then digitRunUAux (acc * 10 + digitVal c) (nd + 1) rest
    else (acc, nd, c :: rest)

/-- A digit run that must start with a digit. -/
def digitRunU : List Char → Option (Nat × Nat × List Char)
  | c :: rest => if isDigitC c then some (digitRunUAux (digitVal c) 1 rest) else none
  | [] => none

/-- `int(s)` for a string: strip, optional sign, base-10 digits
(with underscores); `none` models the `ValueError`. -/
def pyIntOfStr (s : List Char) : Option ℤ :=
  match pyStrip s with
  | '+' :: rest =>
    match digitRunU rest with
    | some (v, _, rest2) => if rest2 = [] then some (v : ℤ) else none
    | none => none
  | '-' :: rest =>
    match digitRunU rest with
    | some (v, _, rest2) => if rest2 = [] then some (-(v : ℤ)) else none
    | none => none
  | t =>
    match digitRunU t with
    | some (v, _, rest2) => if rest2 = [] then some (v : ℤ) else none
    | none => none

/-- Optional exponent part of a float literal (`[eE][+-]?digits`), applied to
an already-parsed mantissa; the string must be fully consumed. -/
def pyFloatExp (mant : ℚ) : List Char → Option ℚ
  | [] => some mant
  | e :: rest =>
    if e == 'e' || e == 'E' then
      match rest with
      | '+' :: rest2 =>
        match digitRunU rest2 with
        | some (ex, _, rest3) => if rest3 = [] then some (mant * (10 : ℚ) ^ ex) else none
        | none => none
      | '-' :: rest2 =>
        match digitRunU rest2 with
        | some (ex, _, rest3) => if rest3 = [] then some (mant / (10 : ℚ) ^ ex) else none
        | none => none
      | _ =>
        match digitRunU rest with
        | some (ex, _, rest3) => if rest3 = [] then some (mant * (10 : ℚ) ^ ex) else none
        | none => none
    else none

/-- Mantissa of a float literal: `digits [. digits?] | . digits`, then the
optional exponent. -/
def pyFloatBody (s : List Char) : Option ℚ :=
  match digitRunU s with
  | some (ip, _, rest) =>
    match rest with
    | '.' :: rest2 =>
      match digitRunU rest2 with
      | some (fp, nd, rest3) => pyFloatExp ((ip : ℚ) + (fp : ℚ) / (10 : ℚ) ^ nd) rest3
      | none => pyFloatExp (ip : ℚ) rest2
    | _ => pyFloatExp (ip : ℚ) rest
  | none =>
    match s with
    | '.' :: rest2 =>
      match digitRunU rest2 with
      | some (fp, nd, rest3) => pyFloatExp ((fp : ℚ) / (10 : ℚ) ^ nd) rest3
      | none => none
    | _ => none

/-- `float(s)` for a string: strip, optional sign, finite decimal literal
(with optional exponent); `none` models the `ValueError`.  The non-finite
literals (`inf`, `nan`) fall outside the rational model and are mapped to
`ValueError`. -/
def pyFloatOfStr (s : List Char) : Option ℚ :=
  match pyStrip s with
  | '+' :: rest => pyFloatBody rest
  | '-' :: rest => (pyFloatBody rest).map (fun q => -q)
  | t => pyFloatBody t

/-- `int(q)` for a float: truncation toward zero. -/
def ratTrunc (q : ℚ) : ℤ := if 0 ≤ q then ⌊q⌋ else -⌊-q⌋

/-- `int(x)` on a field value. -/
def pyInt : PyVal → Except PyExc ℤ
  | .vInt n => .ok n
  | .vFloat q => .ok (ratTrunc q)
  | .vStr s =>
    match pyIntOfStr s with
    | some n => .ok n
    | none => .error .valueError

/-- `float(x)` on a field value. -/
def pyFloat : PyVal → Except PyExc ℚ
  | .vInt n => .ok (n : ℚ)
  | .vFloat q => .ok q
  | .vStr s =>
    match pyFloatOfStr s with
    | some q => .ok q
    | none => .error .valueError

/-- `isinstance(x, str) and len(x) >= 3`. -/
def strOk : PyVal → Bool
  | .vStr s => decide (3 ≤ s.length)
  | _ => false

/-- `validate_date(x)`: `datetime.strptime` raises a `TypeError` (uncaught)
on a non-string argument. -/
def pyValidateDate : PyVal → Except PyExc Bool
  | .vStr s => .ok (validate_date s)
  | _ => .error .typeError

/-- `validate_rut(x)`: `.replace` raises an `AttributeError` (uncaught) on a
non-string argument; on a string the call returns `validate_rut`'s outcome,
including the `ValueError` that `int(char)` can raise inside it. -/
def pyValidateRut : PyVal → Except PyExc Bool
  | .vStr s => validate_rut s
  | _ => .error .attributeError

/-- Read a field after the completeness check has passed (always `some`
there; the default is irrelevant). -/
def getD (data : FieldName → Option PyVal) (f : FieldName) : PyVal :=
  (data f).getD (.vInt 0)

/-- The five free-text fields of check 3–4, 6–8. -/
def strFields : List FieldName :=
  [.nombre_emisor, .nombre_destinatario, .domicilio_emisor,
   .domicilio_destinatario, .descripcion_operaciones]

/-- The `try:` block of `validate_invoice_data` (checks 1–11).  A
`ValueError` at any conversion point jumps to the handler, which adds the
`'general'` entry to the errors accumulated *so far*; any other exception
propagates. -/
def runChecks (data : FieldName → Option PyVal) (previous_invoice_num : Option ℤ)
    (errs0 : ErrMap) : Except PyExc ErrMap :=
  match pyInt (getD data .numero_factura) with
  | .error .valueError => .ok (setErr errs0 .general .conversionError)
  | .error e => .error e
  | .ok n =>
  let e1 := if n ≤ 0 then setErr errs0 (.fld .numero_factura) .numeroNotPositive else errs0
  let e2 := match previous_invoice_num with
    | some p =>
      if n ≠ p + 1 then setErr e1 (.fld .numero_factura) (.numeroNotCorrelative (p + 1)) else e1
    | none => e1
  match pyValidateDate (getD data .fecha_emision) with
  | .error .valueError => .ok (setErr e2 .general .conversionError)
  | .error e => .error e
  | .ok dateIsOk =>
  let e3 := if dateIsOk then e2 else setErr e2 (.fld .fecha_emision) .fechaInvalid
  let e4 := strFields.foldl
    (fun m f => if strOk (getD data f) then m else setErr m (.fld f) .stringTooShort) e3
  match pyValidateRut (getD data .rut_emisor) with
  | .error .valueError => .ok (setErr e4 .general .conversionError)
  | .error e => .error e
  | .ok rutOk =>
  let e5 := if rutOk then e4 else setErr e4 (.fld .rut_emisor) .rutInvalid
  match pyFloat (getD data .monto_neto) with
  | .error .valueError => .ok (setErr e5 .general .conversionError)
  | .error e => .error e
  | .ok mn =>
  let e6 := if mn ≤ 0 then setErr e5 (.fld .monto_neto) .netoNotPositive else e5
  match pyFloat (getD data .iva_tipo) with
  | .error .valueError => .ok (setErr e6 .general .conversionError)
  | .error e => .error e
  | .ok iv =>
  let e7 := if iv < 0 ∨ 1 < iv then setErr e6 (.fld .iva_tipo) .ivaOutOfRange else e6
  match pyFloat (getD data .total) with
  | .error .valueError => .ok (setErr e7 .general .conversionError)
  | .error e => .error e
  | .ok tt =>
  .ok (if 1/100 < |tt - mn * (1 + iv)| then
        setErr e7 (.fld .total) (.totalMismatch (mn * (1 + iv)))
      else e7)

/-- `validate_invoice_data` (src/src/validation.py).  The `iva_rate`
parameter only drives a log line (`IVA no estándar ... permitiendo`) and
never contributes an error, so it does not appear in `runChecks`. -/
def validate_invoice_data (data : FieldName → Option PyVal)
    (previous_invoice_num : Option ℤ) : Except PyExc (Bool × ErrMap) :=
  let errs := requiredFields.foldl
    (fun m f =>
      match data f with
      | none => setErr m (.fld f) (.missing f)
      | some _ => m) []
  if errs.isEmpty then
    match runChecks data previous_invoice_num errs with
    | .error e => .error e
    | .ok e2 => if e2.isEmpty then .ok (true, []) else .ok (false, e2)
  else .ok (false, errs)

/-- A fully valid concrete record (used by sanity checks and witnesses). -/
def sampleVals : FieldName → PyVal
  | .numero_factura => .vStr ("123".toList)
  | .fecha_emision => .vStr ("26 de julio de 2020".toList)
  | .nombre_emisor => .vStr ("Empresa Emisora SPA".toList)
  | .nombre_destinatario => .vStr ("Cliente Destinatario Ltda".toList)
  | .rut_emisor => .vStr ("12.345.678-5".toList)
  | .rut_destinatario => .vStr ("".toList)
  | .domicilio_emisor => .vStr ("Av. Siempre Viva 123, Santiago".toList)
  | .domicilio_destinatario => .vStr ("Calle Falsa 456, Valparaiso".toList)
  | .descripcion_operaciones => .vStr ("Venta de productos electronicos".toList)
  | .monto_neto => .vFloat 100000
  | .iva_tipo => .vFloat (19/100)
  | .total => .vFloat 119000

example : validate_invoice_data (fun f => some (sampleVals f)) none = .ok (true, []) := by
  with_unfolding_all decide

/-! ### Error-map lemmas -/

lemma findErr_map_replace (m : ErrMap) (k : ErrKey) (v : ErrMsg)
    (h : m.any (fun p => p.1 == k) = true) :
    findErr (m.map (fun p => if p.1 == k then (k, v) else p)) k = some v := by
  induction m with
  | nil => simp at h
  | cons p rest ih =>
    cases hp : (p.1 == k) with
    | true => simp [findErr, hp]
    | false =>
      simp only [List.any_cons, hp, Bool.false_or] at h
      simpa [findErr, hp] using ih h

lemma findErr_append_single (m : ErrMap) (k : ErrKey) (v : ErrMsg)
    (h : m.any (fun p => p.1 == k) = false) :
    findErr (m ++ [(k, v)]) k = some v := by
  induction m with
  | nil => simp [findErr]
  | cons p rest ih =>
    simp only [List.any_cons, Bool.or_eq_false_iff] at h
    simpa [findErr, h.1] using ih h.2

lemma findErr_setErr_self (m : ErrMap) (k : ErrKey) (v : ErrMsg) :
    findErr (setErr m k v) k = some v := by
  unfold setErr
  cases h : m.any (fun p => p.1 == k) with
  | true => rw [if_pos rfl]; exact findErr_map_replace m k v h
  | false =>
    rw [if_neg (by simp [h])]
    exact findErr_append_single m k v h

lemma findErr_map_replace_ne (m : ErrMap) {k k' : ErrKey} (h : k' ≠ k) (v : ErrMsg) :
    findErr (m.map (fun p => if p.1 == k' then (k', v) else p)) k = findErr m k := by
  induction m with
  | nil => rfl
  | cons p rest ih =>
    cases hp : (p.1 == k') with
    | true =>
      have hpk : p.1 = k' := by simpa using hp
      have hk2 : (k' == k) = false := by simp [h]
      simpa [findErr, hp, hk2, hpk] using ih
    | false =>
      cases hk : (p.1 == k) with
      | true => simp [findErr, hp, hk]
      | false => simpa [findErr, hp, hk] using ih

lemma findErr_append_single_ne (m : ErrMap) {k k' : ErrKey} (h : k' ≠ k) (v : ErrMsg) :
    findErr (m ++ [(k', v)]) k = findErr m k := by
  induction m with
  | nil => simp [findErr, show (k' == k) = false by simp [h]]
  | cons p rest ih =>
    cases hk : (p.1 == k) with
    | true => simp [findErr, hk]
    | false => simpa [findErr, hk] using ih

lemma findErr_setErr_ne (m : ErrMap) {k k' : ErrKey} (h : k' ≠ k) (v : ErrMsg) :
    findErr (setErr m k' v) k = findErr m k := by
  unfold setErr
  split
  · exact findErr_map_replace_ne m h v
  · exact findErr_append_single_ne m h v

lemma findErr_ite (c : Prop) [Decidable c] (a b : ErrMap) (k : ErrKey) :
    findErr (if c then a else b) k = if c then findErr a k else findErr b k :=
  apply_ite (fun m => findErr m k) c a b

/-- The error map the `try:` block accumulates when every numeric conversion
succeeds (proof helper; this is the success-path value of `runChecks`). -/
def checksErrMap (vals : FieldName → PyVal) (prev : Option ℤ) (n : ℤ)
    (fs : List Char) (rb : Bool) (mn iv tt : ℚ) : ErrMap :=
  let e1 := if n ≤ 0 then setErr [] (.fld .numero_factura) .numeroNotPositive else []
  let e2 := match prev with
    | some p =>
      if n ≠ p + 1 then setErr e1 (.fld .numero_factura) (.numeroNotCorrelative (p + 1)) else e1
    | none => e1
  let e3 := if validate_date fs then e2 else setErr e2 (.fld .fecha_emision) .fechaInvalid
  let e4 := strFields.foldl
    (fun m f => if strOk (vals f) then m else setErr m (.fld f) .stringTooShort) e3
  let e5 := if rb then e4 else setErr e4 (.fld .rut_emisor) .rutInvalid
  let e6 := if mn ≤ 0 then setErr e5 (.fld .monto_neto) .netoNotPositive else e5
  let e7 := if iv < 0 ∨ 1 < iv then setErr e6 (.fld .iva_tipo) .ivaOutOfRange else e6
  if 1/100 < |tt - mn * (1 + iv)| then
    setErr e7 (.fld .total) (.totalMismatch (mn * (1 + iv)))
  else e7

lemma runChecks_ok (vals : FieldName → PyVal) (prev : Option ℤ)
    (fs rs : List Char) (n : ℤ) (rb : Bool) (mn iv tt : ℚ)
    (hf : vals .fecha_emision = .vStr fs)
    (hr : vals .rut_emisor = .vStr rs)
    (hn : pyInt (vals .numero_factura) = .ok n)
    (hrv : validate_rut rs = .ok rb)
    (hm : pyFloat (vals .monto_neto) = .ok mn)
    (hi : pyFloat (vals .iva_tipo) = .ok iv)
    (ht : pyFloat (vals .total) = .ok tt) :
    runChecks (fun f => some (vals f)) prev []
      = .ok (checksErrMap vals prev n fs rb mn iv tt) := by
  unfold runChecks checksErrMap
  simp only [getD, Option.getD_some, hf, hr, hn, hrv, hm, hi, ht, pyValidateDate,
    pyValidateRut]

/-- Characterization of `validate_invoice_data` on a complete record whose
numeric conversions succeed: the call returns normally, `valid` is the
emptiness of the error map, and each specific check contributes its error
entry independently of every other check (proof helper shared by the claims
about `validate_invoice_data`). -/
lemma validate_spec (vals : FieldName → PyVal) (prev : Option ℤ)
    (fs rs : List Char) (n : ℤ) (rb : Bool) (mn iv tt : ℚ)
    (hf : vals .fecha_emision = .vStr fs)
    (hr : vals .rut_emisor = .vStr rs)
    (hn : pyInt (vals .numero_factura) = .ok n)
    (hrv : validate_rut rs = .ok rb)
    (hm : pyFloat (vals .monto_neto) = .ok mn)
    (hi : pyFloat (vals .iva_tipo) = .ok iv)
    (ht : pyFloat (vals .total) = .ok tt) :
    ∃ e : ErrMap,
      validate_invoice_data (fun f => some (vals f)) prev = .ok (e.isEmpty, e) ∧
      findErr e (.fld .numero_factura) =
        (match prev with
         | some p =>
           if n ≠ p + 1 then some (.numeroNotCorrelative (p + 1))
           else if n ≤ 0 then some .numeroNotPositive else none
         | none => if n ≤ 0 then some .numeroNotPositive else none) ∧
      findErr e (.fld .fecha_emision) =
        (if validate_date fs then none else some .fechaInvalid) ∧
      findErr e (.fld .nombre_emisor) =
        (if strOk (vals .nombre_emisor) then none else some .stringTooShort) ∧
      findErr e (.fld .nombre_destinatario) =
        (if strOk (vals .nombre_destinatario) then none else some .stringTooShort) ∧
      findErr e (.fld .domicilio_emisor) =
        (if strOk (vals .domicilio_emisor) then none else some .stringTooShort) ∧
      findErr e (.fld .domicilio_destinatario) =
        (if strOk (vals .domicilio_destinatario) then none else some .stringTooShort) ∧
      findErr e (.fld .descripcion_operaciones) =
        (if strOk (vals .descripcion_operaciones) then none else some .stringTooShort) ∧
      findErr e (.fld .rut_emisor) =
        (if rb then none else some .rutInvalid) ∧
      findErr e (.fld .monto_neto) =
        (if mn ≤ 0 then some .netoNotPositive else none) ∧
      findErr e (.fld .iva_tipo) =
        (if iv < 0 ∨ 1 < iv then some .ivaOutOfRange else none) ∧
      findErr e (.fld .total) =
        (if 1/100 < |tt - mn * (1 + iv)| then
          some (.totalMismatch (mn * (1 + iv))) else none) ∧
      findErr e .general = none := by
  refine ⟨checksErrMap vals prev n fs rb mn iv tt, ?_, ?_⟩
  · have h0 : validate_invoice_data (fun f => some (vals f)) prev =
        (match runChecks (fun f => some (vals f)) prev [] with
         | .error ex => .error ex
         | .ok e2 => if e2.isEmpty then .ok (true, []) else .ok (false, e2)) := rfl
    rw [h0, runChecks_ok vals prev fs rs n rb mn iv tt hf hr hn hrv hm hi ht]
    cases hEe : (checksErrMap vals prev n fs rb mn iv tt).isEmpty with
    | true =>
      have : checksErrMap vals prev n fs rb mn iv tt = [] := by
        cases hc : checksErrMap vals prev n fs rb mn iv tt with
        | nil => rfl
        | cons a l => rw [hc] at hEe; simp at hEe
      simp [hEe, this]
    | false => simp [hEe]
  · rcases prev with _ | p <;>
      simp only [checksErrMap, strFields, List.foldl_cons, List.foldl_nil] <;>
      refine ⟨?_, ?_, ?_, ?_, ?_, ?_, ?_, ?_, ?_, ?_, ?_, ?_⟩ <;>
      simp [findErr_ite, findErr_setErr_self, findErr_setErr_ne, findErr, ite_self]

/-- The C2 counterexample record: complete (every field present and
non-null), but `numero_factura` is the non-numeric string `"abc"` and
`iva_tipo` is `5`, far outside `[0, 1]`. -/
def cexC2Vals : FieldName → PyVal := fun f =>
  match f with
  | .numero_factura => .vStr ("abc".toList)
  | .iva_tipo => .vInt 5
  | _ => sampleVals f

/-- **C2, counterexample.** A complete record on which the claim fails:
`int('abc')` raises a `ValueError`, the handler returns only the `'general'`
entry, and the IVA-range check — although `iva_tipo = 5` violates it — is
never evaluated: the returned error map has no `iva_tipo` entry. -/
theorem validate_collects_all_cex :
    validate_invoice_data (fun f => some (cexC2Vals f)) none
      = .ok (false, [(.general, .conversionError)]) ∧
    cexC2Vals .iva_tipo = .vInt 5 ∧
    findErr [(ErrKey.general, ErrMsg.conversionError)] (.fld .iva_tipo) = none := by
  with_unfolding_all decide

/-- **C2, amended.** For every complete record whose `numero_factura`,
`monto_neto`, `iva_tipo` and `total` convert without a `ValueError` and whose
`fecha_emision` and `rut_emisor` are strings, with `validate_rut` returning a
boolean on `rut_emisor` rather than raising the `ValueError` of `int('K')`
on a `"…K\n"`-shaped string, `validate_invoice_data` evaluates every specific
check and collects every failure into the returned error map in one call:
each field's entry is exactly its own check's verdict, independent of all
other checks. -/
theorem validate_collects_all (vals : FieldName → PyVal) (prev : Option ℤ)
    (fs rs : List Char) (n : ℤ) (rb : Bool) (mn iv tt : ℚ)
    (hf : vals .fecha_emision = .vStr fs)
    (hr : vals .rut_emisor = .vStr rs)
    (hn : pyInt (vals .numero_factura) = .ok n)
    (hrv : validate_rut rs = .ok rb)
    (hm : pyFloat (vals .monto_neto) = .ok mn)
    (hi : pyFloat (vals .iva_tipo) = .ok iv)
    (ht : pyFloat (vals .total) = .ok tt) :
    ∃ e : ErrMap,
      validate_invoice_data (fun f => some (vals f)) prev = .ok (e.isEmpty, e) ∧
      findErr e (.fld .numero_factura) =
        (match prev with
         | some p =>
           if n ≠ p + 1 then some (.numeroNotCorrelative (p + 1))
           else if n ≤ 0 then some .numeroNotPositive else none
         | none => if n ≤ 0 then some .numeroNotPositive else none) ∧
      findErr e (.fld .fecha_emision) =
        (if validate_date fs then none else some .fechaInvalid) ∧
      findErr e (.fld .nombre_emisor) =
        (if strOk (vals .nombre_emisor) then none else some .stringTooShort) ∧
      findErr e (.fld .nombre_destinatario) =
        (if strOk (vals .nombre_destinatario) then none else some .stringTooShort) ∧
      findErr e (.fld .domicilio_emisor) =
        (if strOk (vals .domicilio_emisor) then none else some .stringTooShort) ∧
      findErr e (.fld .domicilio_destinatario) =
        (if strOk (vals .domicilio_destinatario) then none else some .stringTooShort) ∧
      findErr e (.fld .descripcion_operaciones) =
        (if strOk (vals .descripcion_operaciones) then none else some .stringTooShort) ∧
      findErr e (.fld .rut_emisor) =
        (if rb then none else some .rutInvalid) ∧
      findErr e (.fld .monto_neto) =
        (if mn ≤ 0 then some .netoNotPositive else none) ∧
      findErr e (.fld .iva_tipo) =
        (if iv < 0 ∨ 1 < iv then some .ivaOutOfRange else none) ∧
      findErr e (.fld .total) =
        (if 1/100 < |tt - mn * (1 + iv)| then
          some (.totalMismatch (mn * (1 + iv))) else none) ∧
      findErr e .general = none :=
  validate_spec vals prev fs rs n rb mn iv tt hf hr hn hrv hm hi ht

/-- Witness for the amended C2 at the concrete valid record. -/
theorem validate_collects_all_witness :
    ∃ e : ErrMap,
      validate_invoice_data (fun f => some (sampleVals f)) none = .ok (e.isEmpty, e) ∧
      findErr e (.fld .iva_tipo) =
        (if (19/100 : ℚ) < 0 ∨ 1 < (19/100 : ℚ) then some .ivaOutOfRange else none) := by
  obtain ⟨e, h1, _, _, _, _, _, _, _, _, _, h11, _, _⟩ :=
    validate_collects_all sampleVals none ("26 de julio de 2020".toList)
      ("12.345.678-5".toList) 123 true 100000 (19/100) 119000
      rfl rfl rfl (by decide) rfl rfl rfl
  exact ⟨e, h1, h11⟩

/-- **C3.** For `neto ≥ 0` and an `iva_tipo` field value in `[0, 1]` (and a
record shape on which check 11 is reached: `numero_factura` converts and
`validate_rut` on `rut_emisor` returns a boolean rather than raising the
`ValueError` of a `"…K\n"`-shaped string), a record whose `total` equals
`neto * (1 + iva_tipo)` passes the total-reconciliation check — no `total`
entry in the error map — while a record whose `total` differs from it by
more than `0.01` gets a `total` error carrying the expected value. -/
theorem total_reconciliation (vals : FieldName → PyVal) (prev : Option ℤ)
    (fs rs : List Char) (n : ℤ) (rb : Bool) (mn iv tt : ℚ)
    (hmn : 0 ≤ mn) (hiv0 : 0 ≤ iv) (hiv1 : iv ≤ 1)
    (hvm : vals .monto_neto = .vFloat mn)
    (hvi : vals .iva_tipo = .vFloat iv)
    (hvt : vals .total = .vFloat tt)
    (hf : vals .fecha_emision = .vStr fs)
    (hr : vals .rut_emisor = .vStr rs)
    (hn : pyInt (vals .numero_factura) = .ok n)
    (hrv : validate_rut rs = .ok rb) :
    ∃ e : ErrMap,
      validate_invoice_data (fun f => some (vals f)) prev = .ok (e.isEmpty, e) ∧
      (tt = mn * (1 + iv) → findErr e (.fld .total) = none) ∧
      (1/100 < |tt - mn * (1 + iv)| →
        findErr e (.fld .total) = some (.totalMismatch (mn * (1 + iv)))) := by
  obtain ⟨e, h1, _, _, _, _, _, _, _, _, _, _, h12, _⟩ :=
    validate_spec vals prev fs rs n rb mn iv tt hf hr hn hrv
      (by rw [hvm]; rfl) (by rw [hvi]; rfl) (by rw [hvt]; rfl)
  refine ⟨e, h1, ?_, ?_⟩
  · intro heq
    rw [h12, if_neg]
    rw [heq]
    simp
  · intro hgt
    rw [h12, if_pos hgt]

/-- Witness for C3 at the concrete valid record
(`total = 119000 = 100000 × 1.19` exactly). -/
theorem total_reconciliation_witness :
    ∃ e : ErrMap,
      validate_invoice_data (fun f => some (sampleVals f)) none = .ok (e.isEmpty, e) ∧
      ((119000 : ℚ) = 100000 * (1 + 19/100) → findErr e (.fld .total) = none) ∧
      (1/100 < |(119000 : ℚ) - 100000 * (1 + 19/100)| →
        findErr e (.fld .total) = some (.totalMismatch (100000 * (1 + 19/100)))) := by
  obtain ⟨e, h1, h2, h3⟩ :=
    total_reconciliation sampleVals none ("26 de julio de 2020".toList)
      ("12.345.678-5".toList) 123 true 100000 (19/100) 119000
      (by norm_num) (by norm_num) (by norm_num) rfl rfl rfl rfl rfl rfl (by decide)
  exact ⟨e, h1, h2, h3⟩

/-- **C9.** `validate_invoice_data` never checks `rut_destinatario`: the
result is invariant under replacing that field by any value whatsoever, and
the concrete record whose `rut_destinatario` is the empty (hence
checksum-invalid) string still validates to `valid = true` because all other
checks pass. -/
theorem rut_destinatario_ignored :
    (∀ (vals : FieldName → PyVal) (r : PyVal) (prev : Option ℤ),
      validate_invoice_data
          (fun f => some (Function.update vals .rut_destinatario r f)) prev
        = validate_invoice_data (fun f => some (vals f)) prev) ∧
    validate_rut ("".toList) = .ok false ∧
    sampleVals .rut_destinatario = .vStr ("".toList) ∧
    validate_invoice_data (fun f => some (sampleVals f)) none = .ok (true, []) := by
  refine ⟨?_, by decide, rfl, by with_unfolding_all decide⟩
  intro vals r prev
  have h0L : validate_invoice_data
      (fun f => some (Function.update vals .rut_destinatario r f)) prev =
      (match runChecks (fun f => some (Function.update vals .rut_destinatario r f)) prev [] with
       | .error ex => .error ex
       | .ok e2 => if e2.isEmpty then .ok (true, []) else .ok (false, e2)) := rfl
  have h0R : validate_invoice_data (fun f => some (vals f)) prev =
      (match runChecks (fun f => some (vals f)) prev [] with
       | .error ex => .error ex
       | .ok e2 => if e2.isEmpty then .ok (true, []) else .ok (false, e2)) := rfl
  rw [h0L, h0R]
  have hrun : runChecks (fun f => some (Function.update vals .rut_destinatario r f)) prev []
      = runChecks (fun f => some (vals f)) prev [] := by
    unfold runChecks
    simp only [getD, Option.getD_some, strFields, List.foldl_cons, List.foldl_nil,
      Function.update_apply]
    simp
  rw [hrun]

/-- The C10 witness record: the `monto_neto` sentinel `0` (with a matching
`total`), all other fields valid. -/
def zeroNetoVals : FieldName → PyVal := fun f =>
  match f with
  | .monto_neto => .vFloat 0
  | .total => .vFloat 0
  | _ => sampleVals f

/-- The C10 counterexample record: complete (every field present), with
`monto_neto` carrying the sentinel `0`, but `numero_factura` the non-numeric
string `"abc"`. -/
def c10CexVals : FieldName → PyVal := fun f =>
  match f with
  | .numero_factura => .vStr ("abc".toList)
  | .monto_neto => .vFloat 0
  | .total => .vFloat 0
  | _ => sampleVals f

/-- **C10, counterexample.** A complete record with `monto_neto = 0` for
which no `monto_neto` error is added: `int('abc')` raises a `ValueError`
before the neto check runs, the handler returns only the `'general'` entry,
and the returned map has no `monto_neto` key — the record is reported
invalid, but not with the claimed per-field error. -/
theorem monto_neto_positive_required_cex :
    c10CexVals .monto_neto = .vFloat 0 ∧
    validate_invoice_data (fun f => some (c10CexVals f)) none
      = .ok (false, [(.general, .conversionError)]) ∧
    findErr [(ErrKey.general, ErrMsg.conversionError)] (.fld .monto_neto) = none := by
  with_unfolding_all decide

lemma setErr_ne_nil (m : ErrMap) (k : ErrKey) (v : ErrMsg) : setErr m k v ≠ [] := by
  unfold setErr
  split
  · rename_i hany
    cases m with
    | nil => simp at hany
    | cons p rest => simp
  · simp

lemma ite_setErr_ne_nil (c : Prop) [Decidable c] (m : ErrMap) (k : ErrKey) (v : ErrMsg)
    (h : m ≠ []) : (if c then setErr m k v else m) ≠ [] := by
  split
  · exact setErr_ne_nil m k v
  · exact h

/-- If the `try:` block returns an empty error map, the monto-neto check was
reached and passed, so the converted neto is positive (whatever the other
field values are). -/
lemma runChecks_nil_monto (vals : FieldName → PyVal) (prev : Option ℤ) (mn : ℚ)
    (hm : pyFloat (vals .monto_neto) = .ok mn)
    (hrun : runChecks (fun f => some (vals f)) prev [] = .ok []) : 0 < mn := by
  by_contra hnot
  have hle : mn ≤ 0 := le_of_not_lt hnot
  unfold runChecks at hrun
  simp only [getD, Option.getD_some] at hrun
  cases h1 : pyInt (vals .numero_factura) with
  | error ex =>
    cases ex
    case valueError =>
      simp only [h1] at hrun
      exact setErr_ne_nil _ _ _ (Except.ok.inj hrun)
    case typeError => simp [h1] at hrun
    case attributeError => simp [h1] at hrun
    case otherError => simp [h1] at hrun
  | ok n =>
    simp only [h1] at hrun
    cases h2 : pyValidateDate (vals .fecha_emision) with
    | error ex =>
      cases ex
      case valueError =>
        simp only [h2] at hrun
        exact setErr_ne_nil _ _ _ (Except.ok.inj hrun)
      case typeError => simp [h2] at hrun
      case attributeError => simp [h2] at hrun
      case otherError => simp [h2] at hrun
    | ok dateIsOk =>
      simp only [h2] at hrun
      cases h3 : pyValidateRut (vals .rut_emisor) with
      | error ex =>
        cases ex
        case valueError =>
          simp only [h3] at hrun
          exact setErr_ne_nil _ _ _ (Except.ok.inj hrun)
        case typeError => simp [h3] at hrun
        case attributeError => simp [h3] at hrun
        case otherError => simp [h3] at hrun
      | ok rutOk =>
        simp only [h3, hm] at hrun
        cases h5 : pyFloat (vals .iva_tipo) with
        | error ex =>
          cases ex
          case valueError =>
            simp only [h5] at hrun
            exact setErr_ne_nil _ _ _ (Except.ok.inj hrun)
          case typeError => simp [h5] at hrun
          case attributeError => simp [h5] at hrun
          case otherError => simp [h5] at hrun
        | ok iv =>
          simp only [h5] at hrun
          cases h6 : pyFloat (vals .total) with
          | error ex =>
            cases ex
            case valueError =>
              simp only [h6] at hrun
              exact setErr_ne_nil _ _ _ (Except.ok.inj hrun)
            case typeError => simp [h6] at hrun
            case attributeError => simp [h6] at hrun
            case otherError => simp [h6] at hrun
          | ok tt =>
            simp only [h6] at hrun
            rw [if_pos hle] at hrun
            exact absurd (Except.ok.inj hrun)
              (ite_setErr_ne_nil _ _ _ _ (ite_setErr_ne_nil _ _ _ _ (setErr_ne_nil _ _ _)))

/-- If `validate_invoice_data` reports `valid = true`, the neto check was
reached and passed. -/
lemma valid_true_neto_pos (vals : FieldName → PyVal) (prev : Option ℤ) (mn : ℚ)
    (hm : pyFloat (vals .monto_neto) = .ok mn) (v : Bool) (e : ErrMap)
    (hres : validate_invoice_data (fun f => some (vals f)) prev = .ok (v, e))
    (hv : v = true) : 0 < mn := by
  subst hv
  have h0 : validate_invoice_data (fun f => some (vals f)) prev =
      (match runChecks (fun f => some (vals f)) prev [] with
       | .error ex => .error ex
       | .ok e2 => if e2.isEmpty then .ok (true, []) else .ok (false, e2)) := rfl
  rw [h0] at hres
  cases hrc : runChecks (fun f => some (vals f)) prev [] with
  | error ex => simp only [hrc] at hres; exact Except.noConfusion hres
  | ok e2 =>
    simp only [hrc] at hres
    cases he2 : e2.isEmpty with
    | false => simp only [he2, if_neg] at hres; simp at hres
    | true =>
      have he2nil : e2 = [] := by
        cases e2 with
        | nil => rfl
        | cons a l => simp at he2
      rw [he2nil] at hrc
      exact runChecks_nil_monto vals prev mn hm hrc

/-- **C10, amended.** Whenever `monto_neto` converts to a value `mn`:
`valid = true` implies `mn > 0` — so a neto carrying the not-found sentinel
`0`, or any non-positive amount, is never validated — and provided the
earlier conversions return without a `ValueError` (`numero_factura`
converts, `fecha_emision`/`rut_emisor` are strings and `validate_rut` returns
a boolean) a record with `mn ≤ 0` is reported invalid with the `monto_neto`
error entry. As literally stated the claim is false: when an earlier
conversion raises (e.g. `numero_factura = 'abc'`), a record with
`monto_neto = 0` gets only the `'general'` entry and no `monto_neto`
error. -/
theorem monto_neto_positive_required (vals : FieldName → PyVal) (prev : Option ℤ)
    (mn : ℚ) (hm : pyFloat (vals .monto_neto) = .ok mn) :
    (∀ (v : Bool) (e : ErrMap),
      validate_invoice_data (fun f => some (vals f)) prev = .ok (v, e) →
        v = true → 0 < mn) ∧
    (∀ (fs rs : List Char) (n : ℤ) (rb : Bool) (iv tt : ℚ),
      vals .fecha_emision = .vStr fs → vals .rut_emisor = .vStr rs →
      pyInt (vals .numero_factura) = .ok n → validate_rut rs = .ok rb →
      pyFloat (vals .iva_tipo) = .ok iv → pyFloat (vals .total) = .ok tt →
      mn ≤ 0 →
      ∃ e : ErrMap,
        validate_invoice_data (fun f => some (vals f)) prev = .ok (false, e) ∧
        findErr e (.fld .monto_neto) = some .netoNotPositive) := by
  constructor
  · intro v e hres hv
    exact valid_true_neto_pos vals prev mn hm v e hres hv
  · intro fs rs n rb iv tt hf hr hn hrv hi ht hle
    obtain ⟨e, h1, _, _, _, _, _, _, _, _, h10, _, _, _⟩ :=
      validate_spec vals prev fs rs n rb mn iv tt hf hr hn hrv hm hi ht
    have hmonto : findErr e (.fld .monto_neto) = some .netoNotPositive := by
      rw [h10, if_pos hle]
    have hne : e.isEmpty = false := by
      cases he : e.isEmpty with
      | false => rfl
      | true =>
        have henil : e = [] := by
          cases e with
          | nil => rfl
          | cons a l => simp at he
        rw [henil] at hmonto
        simp [findErr] at hmonto
    rw [hne] at h1
    exact ⟨e, h1, hmonto⟩

/-- Witness for the amended C10 at the concrete record whose neto is the
sentinel `0`. -/
theorem monto_neto_positive_required_witness :
    ∃ e : ErrMap,
      validate_invoice_data (fun f => some (zeroNetoVals f)) none = .ok (false, e) ∧
      findErr e (.fld .monto_neto) = some .netoNotPositive :=
  (monto_neto_positive_required zeroNetoVals none 0 rfl).2
    ("26 de julio de 2020".toList) ("12.345.678-5".toList) 123 true (19/100) 0
    rfl rfl rfl (by decide) rfl rfl (le_refl 0)

/-! ## `FacturaExtractorService` (backend/services/factura_extractor_service.py)

Each Python regex is embedded as a matcher
`List Char → Option (capture × rest)`: it matches the pattern at the *start*
of its argument and returns the captured group together with the suffix
following the whole match.  `re.search` scans positions left to right and
returns the first match; `re.findall` does the same but continues scanning
after each match's end.  Both scans are written with an explicit fuel
argument (initialised to more than the text length) to make termination
evident; the matchers always consume at least one character, so the fuel
never runs out. -/

/-- `re.findall` position scan (collecting the captured group). -/
def findAllAux (matcher : List Char → Option (List Char × List Char)) :
    Nat → List Char → List (List Char)
  | 0, _ => []
  | _ + 1, [] =>
    match matcher [] with
    | some (cap, _) => [cap]
    | none => []
  | fuel + 1, s@(_ :: tail) =>
    match matcher s with
    | some (cap, rest) => cap :: findAllAux matcher fuel rest
    | none => findAllAux matcher fuel tail

/-- `re.findall pattern text` (group captures, in match order). -/
def findAll (matcher : List Char → Option (List Char × List Char))
    (s : List Char) : List (List Char) :=
  findAllAux matcher (s.length + 1) s

/-- `re.search` position scan. -/
def searchFirstAux {α : Type} (matcher : List Char → Option α) :
    Nat → List Char → Option α
  | 0, _ => none
  | _ + 1, [] => matcher []
  | fuel + 1, s@(_ :: tail) =>
    match matcher s with
    | some r => some r
    | none => searchFirstAux matcher fuel tail

/-- `re.search pattern text` (first match, scanning left to right). -/
def searchFirst {α : Type} (matcher : List Char → Option α) (s : List Char) : Option α :=
  searchFirstAux matcher (s.length + 1) s

/-- Case-insensitive literal (the literal is given lowercase; `re.IGNORECASE`). -/
def matchLit : List Char → List Char → Option (List Char)
  | [], s => some s
  | _ :: _, [] => none
  | a :: as, b :: bs => if pyLower b == a then matchLit as bs else none

/-- The amount-capture class `[\d.,]`. -/
def isAmtChar (c : Char) : Bool := isDigitC c || c == '.' || c == ','

/-- `\$\s*=?\s*([\d.,]+)`. -/
def dollarAmount : List Char → Option (List Char × List Char)
  | '$' :: s2 =>
    let s3 := s2.dropWhile isPySpace
    let s4 := match s3 with
      | '=' :: r => r
      | _ => s3
    let s5 := s4.dropWhile isPySpace
    let cap := s5.takeWhile isAmtChar
    if cap.isEmpty then none else some (cap, s5.drop cap.length)
  | _ => none

/-- `[:\s]*\$\s*=?\s*([\d.,]+)` — the common tail of the amount patterns. -/
def amountTail (s : List Char) : Option (List Char × List Char) :=
  dollarAmount (s.dropWhile fun c => c == ':' || isPySpace c)

/-- `MONTO\s+NETO[:\s]*\$\s*=?\s*([\d.,]+)` at the current position. -/
def netoMatcher (s : List Char) : Option (List Char × List Char) :=
  match matchLit ("monto".toList) s with
  | some s1 =>
    let sp := s1.takeWhile isPySpace
    if sp.isEmpty then none
    else
      match matchLit ("neto".toList) (s1.drop sp.length) with
      | some s2 => amountTail s2
      | none => none
  | none => none

/-- `\.?` (deterministic here: what follows is never a dot). -/
def optDot : List Char → List Char
  | '.' :: r => r
  | s => s

/-- `I\.?V\.?A\.?[:\s]*\d+%?\s*\$\s*=?\s*([\d.,]+)` at the current position. -/
def ivaMatcher (s : List Char) : Option (List Char × List Char) :=
  match s with
  | c :: s1 =>
    if pyLower c == 'i' then
      match optDot s1 with
      | v :: s3 =>
        if pyLower v == 'v' then
          match optDot s3 with
          | a :: s5 =>
            if pyLower a == 'a' then
              let s6 := optDot s5
              let s7 := s6.dropWhile fun c => c == ':' || isPySpace c
              let ds := s7.takeWhile isDigitC
              if ds.isEmpty then none
              else
                let s8 := s7.drop ds.length
                let s9 := match s8 with
                  | '%' :: r => r
                  | _ => s8
                dollarAmount (s9.dropWhile isPySpace)
            else none
          | [] => none
        else none
      | [] => none
    else none
  | [] => none

/-- `TOTAL[:\s]*\$\s*=?\s*([\d.,]+)` at the current position. -/
def totalMatcher (s : List Char) : Option (List Char × List Char) :=
  match matchLit ("total".toList) s with
  | some s1 => amountTail s1
  | none => none

/-- `IMPUESTO\s+ADICIONAL[:\s]*\$\s*=?\s*([\d.,]+)` at the current position. -/
def impuestoMatcher (s : List Char) : Option (List Char × List Char) :=
  match matchLit ("impuesto".toList) s with
  | some s1 =>
    let sp := s1.takeWhile isPySpace
    if sp.isEmpty then none
    else
      match matchLit ("adicional".toList) (s1.drop sp.length) with
      | some s2 => amountTail s2
      | none => none
  | none => none

/-- Integer value of a digit string. -/
def natOfDigits (ds : List Char) : Nat :=
  ds.foldl (fun acc c => acc * 10 + digitVal c) 0

/-- `FacturaExtractorService._parse_monto`: keep only the digits, convert, `0`
for an empty result. -/
def parse_monto (ms : List Char) : Nat :=
  if ms.isEmpty then 0
  else
    let clean := ms.filter isDigitC
    if clean.isEmpty then 0 else natOfDigits clean

/-- The result of `extract_montos`. -/
structure Montos where
  neto : Nat
  iva : Nat
  total : Nat
  impuesto_adicional : Nat
deriving DecidableEq, Repr

/-- `FacturaExtractorService.extract_montos` (lines 259–296): NETO by first
match, IVA and TOTAL by last match; if no TOTAL matched and `neto > 0`,
`total` is derived as `neto + iva`. -/
def extract_montos (text : List Char) : Montos :=
  let neto := match searchFirst netoMatcher text with
    | some (cap, _) => parse_monto cap
    | none => 0
  let iva := match (findAll ivaMatcher text).getLast? with
    | some cap => parse_monto cap
    | none => 0
  let total := match (findAll totalMatcher text).getLast? with
    | some cap => parse_monto cap
    | none => if neto > 0 then neto + iva else 0
  let imp := match (findAll impuestoMatcher text).getLast? with
    | some cap => parse_monto cap
    | none => 0
  ⟨neto, iva, total, imp⟩

example :
    extract_montos (("MONTO NETO $ 100.000\nI.V.A.19% $ 19.000\nTOTAL $ 119.000").toList)
      = ⟨100000, 19000, 119000, 0⟩ := by decide
example : extract_montos (("MONTO NETO: $ 2.500").toList) = ⟨2500, 0, 2500, 0⟩ := by decide
example : extract_montos (("sin montos").toList) = ⟨0, 0, 0, 0⟩ := by decide

/-- The C6 counterexample text: an explicit `MONTO NETO` of `0` and an IVA of
`100`, with no TOTAL line. -/
def cexC6Text : List Char := ("MONTO NETO: $ 0 I.V.A. 19% $ 100").toList

/-- **C6, counterexample.** A text in which no TOTAL pattern matches and a
`MONTO NETO` amount *is present* (it matches, with value `0`): the code
leaves `total` at its sentinel `0` instead of deriving `neto + iva = 100`,
because the derivation is guarded by `neto > 0`, not by the presence of the
NETO match. -/
theorem total_derivation_cex :
    (searchFirst netoMatcher cexC6Text).isSome = true ∧
    findAll totalMatcher cexC6Text = [] ∧
    (extract_montos cexC6Text).iva = 100 ∧
    (extract_montos cexC6Text).total = 0 ∧
    (extract_montos cexC6Text).total ≠
      (extract_montos cexC6Text).neto + (extract_montos cexC6Text).iva := by
  decide

/-- **C6, amended.** For every text in which no TOTAL amount pattern matches
and the parsed `MONTO NETO` value is positive, `extract_montos` derives
`total = neto + iva` instead of leaving the sentinel `0`. -/
theorem total_derived_from_neto (text : List Char)
    (htot : findAll totalMatcher text = [])
    (hneto : 0 < (extract_montos text).neto) :
    (extract_montos text).total
      = (extract_montos text).neto + (extract_montos text).iva := by
  have h := hneto
  simp only [extract_montos, htot, List.getLast?_nil] at h ⊢
  rw [if_pos h]

/-- Witness for the amended C6 at a concrete text with a positive NETO and no
TOTAL. -/
theorem total_derived_from_neto_witness :
    (extract_montos (("MONTO NETO: $ 5").toList)).total
      = (extract_montos (("MONTO NETO: $ 5").toList)).neto
        + (extract_montos (("MONTO NETO: $ 5").toList)).iva :=
  total_derived_from_neto (("MONTO NETO: $ 5").toList) (by decide) (by decide)

/-! ### `extract_ruts` (lines 25–53): pattern
`(\d{1,2}\.\d{3}\.\d{3}-\s*[\dkK]|\d{8}-\s*[\dkK])`, `re.IGNORECASE`. -/

/-- `[\dkK]`. -/
def isDvkChar (c : Char) : Bool := isDigitC c || c == 'k' || c == 'K'

/-- Exactly `n` digits. -/
def takeDigitsN : Nat → List Char → Option (List Char × List Char)
  | 0, s => some ([], s)
  | n + 1, c :: rest =>
    if isDigitC c then (takeDigitsN n rest).map (fun p => (c :: p.1, p.2)) else none
  | _ + 1, [] => none

/-- `-\s*[\dkK]` (the matched text goes into the capture). -/
def rutDashTail (pre : List Char) : List Char → Option (List Char × List Char)
  | '-' :: s1 =>
    let sp := s1.takeWhile isPySpace
    match s1.drop sp.length with
    | v :: s2 => if isDvkChar v then some (pre ++ '-' :: sp ++ [v], s2) else none
    | [] => none
  | _ => none

/-- `\.\d{3}\.\d{3}` followed by the dash tail. -/
def rutDotTail (pre : List Char) : List Char → Option (List Char × List Char)
  | '.' :: s1 =>
    match takeDigitsN 3 s1 with
    | some (d1, s2) =>
      match s2 with
      | '.' :: s3 =>
        match takeDigitsN 3 s3 with
        | some (d2, s4) => rutDashTail (pre ++ '.' :: d1 ++ '.' :: d2) s4
        | none => none
      | _ => none
    | none => none
  | _ => none

/-- The RUT pattern at the current position (dotted alternative first, with
the greedy `\d{1,2}` trying two digits before one). -/
def rutMatcher (s : List Char) : Option (List Char × List Char) :=
  (match s with
   | c1 :: c2 :: rest =>
     if isDigitC c1 && isDigitC c2 then rutDotTail [c1, c2] rest else none
   | _ => none)
  <|>
  (match s with
   | c1 :: rest => if isDigitC c1 then rutDotTail [c1] rest else none
   | _ => none)
  <|>
  (match takeDigitsN 8 s with
   | some (ds, s1) => rutDashTail ds s1
   | none => none)

/-- `re.sub(r'\s*-\s*', '-', rut)`: one replacement step. -/
def dashMatch (s : List Char) : Option (List Char) :=
  match s.dropWhile isPySpace with
  | '-' :: u => some (u.dropWhile isPySpace)
  | _ => none

/-- `re.sub(r'\s*-\s*', '-', rut)`: the scan. -/
def subDashAux : Nat → List Char → List Char
  | 0, s => s
  | _ + 1, [] => []
  | fuel + 1, s@(c :: rest) =>
    match dashMatch s with
    | some r => '-' :: subDashAux fuel r
    | none => c :: subDashAux fuel rest

/-- Normalize the hyphen whitespace of a RUT. -/
def subDash (s : List Char) : List Char := subDashAux s.length s

/-- Normalization of one found RUT: collapse `\s*-\s*` to `-`, uppercase. -/
def cleanRut (r : List Char) : List Char := (subDash r).map pyUpper

/-- De-duplicate preserving first-seen order (`if rut not in ruts_limpios`). -/
def dedupAux : List (List Char) → List (List Char) → List (List Char)
  | acc, [] => acc
  | acc, r :: rest =>
    if acc.contains r then dedupAux acc rest else dedupAux (acc ++ [r]) rest

/-- `ruts_limpios` of `extract_ruts`. -/
def extract_ruts_list (text : List Char) : List (List Char) :=
  dedupAux [] ((findAll rutMatcher text).map cleanRut)

/-- `extract_ruts`: first unique RUT = issuer, second = recipient, `""` when
absent. -/
def extract_ruts (text : List Char) : List Char × List Char :=
  let rl := extract_ruts_list text
  (rl.getD 0 [], rl.getD 1 [])

example :
    extract_ruts (("R.U.T.: 76.123.456-7\nSENOR: X\nR.U.T. : 12345678- 5").toList)
      = (("76.123.456-7").toList, ("12345678-5").toList) := by decide

/-! ### `extract_numero_factura` (lines 55–80), `re.IGNORECASE | re.MULTILINE`. -/

/-- `[Nn]°\s*(\d+)`. -/
def numeroDegreeDigits : List Char → Option Nat
  | n :: deg :: rest =>
    if (n == 'N' || n == 'n') && deg == '°' then
      let s2 := rest.dropWhile isPySpace
      let ds := s2.takeWhile isDigitC
      if ds.isEmpty then none else some (natOfDigits ds)
    else none
  | _ => none

/-- `FACTURA\s+[Nn]°\s*(\d+)` at the current position. -/
def numeroP1 (s : List Char) : Option Nat :=
  match matchLit ("factura".toList) s with
  | some s1 =>
    let sp := s1.takeWhile isPySpace
    if sp.isEmpty then none else numeroDegreeDigits (s1.drop sp.length)
  | none => none

/-- `(?:^|[\s])[Nn]°\s*(\d+)` with `re.MULTILINE`: the scan tracks whether
the current position is a line start (`^`), trying the zero-width `^`
alternative before the one-character `[\s]` alternative. -/
def numeroP2Search : Bool → Nat → List Char → Option Nat
  | _, 0, _ => none
  | atLS, _ + 1, [] => if atLS then numeroDegreeDigits [] else none
  | atLS, fuel + 1, s@(c :: rest) =>
    (if atLS then numeroDegreeDigits s else none)
    <|> (if isPySpace c then numeroDegreeDigits rest else none)
    <|> numeroP2Search (c == '\n') fuel rest

/-- `re.search` for the second pattern. -/
def numeroP2 (text : List Char) : Option Nat :=
  numeroP2Search true (text.length + 1) text

/-- `Factura[:\s]*(\d+)`. -/
def numeroP3fact (s : List Char) : Option Nat :=
  match matchLit ("factura".toList) s with
  | some s1 =>
    let s2 := s1.dropWhile fun c => c == ':' || isPySpace c
    let ds := s2.takeWhile isDigitC
    if ds.isEmpty then none else some (natOfDigits ds)
  | none => none

/-- `[Nn]úmero\s+(?:de\s+)?Factura[:\s]*(\d+)` at the current position. -/
def numeroP3 (s : List Char) : Option Nat :=
  match matchLit ("número".toList) s with
  | some s1 =>
    let sp := s1.takeWhile isPySpace
    if sp.isEmpty then none
    else
      let s2 := s1.drop sp.length
      (match matchLit ("de".toList) s2 with
       | some s3 =>
         let sp2 := s3.takeWhile isPySpace
         if sp2.isEmpty then none else numeroP3fact (s3.drop sp2.length)
       | none => none)
      <|> numeroP3fact s2
  | none => none

/-- The three patterns of `extract_numero_factura`, tried in order, first
match wins. -/
def numeroSearch (text : List Char) : Option Nat :=
  searchFirst numeroP1 text <|> numeroP2 text <|> searchFirst numeroP3 text

/-- `extract_numero_factura`: `0` when nothing matches. -/
def extract_numero_factura (text : List Char) : Nat :=
  match numeroSearch text with
  | some v => v
  | none => 0

example : extract_numero_factura (("FACTURA N° 338\nmas texto").toList) = 338 := by decide
example : extract_numero_factura (("sin numero").toList) = 0 := by decide
example : extract_numero_factura (("ver N°42").toList) = 42 := by decide

/-! ### `extract_fecha_emision` (lines 82–132), `re.IGNORECASE`. -/

/-- Python `\w` (ASCII word characters plus Latin-1 letters). -/
def pyIsWordChar (c : Char) : Bool :=
  (48 ≤ c.toNat && c.toNat ≤ 57) || (65 ≤ c.toNat && c.toNat ≤ 90) ||
    (97 ≤ c.toNat && c.toNat ≤ 122) || c == '_' ||
    (192 ≤ c.toNat && c.toNat ≤ 255 && c.toNat ≠ 215 && c.toNat ≠ 247)

/-- `\s+(\d{4})` (no end anchor: `re.search`). -/
def fechaAnio (s : List Char) : Option Nat :=
  let sp := s.takeWhile isPySpace
  if sp.isEmpty then none
  else
    match parse4Digits (s.drop sp.length) with
    | some (y, _) => some y
    | none => none

/-- `(\w+)\s+del?\s+(\d{4})` (the greedy `l?` tried first). -/
def fechaMesAnio (s : List Char) : Option (List Char × Nat) :=
  let w := s.takeWhile pyIsWordChar
  if w.isEmpty then none
  else
    let s1 := s.drop w.length
    let sp := s1.takeWhile isPySpace
    if sp.isEmpty then none
    else
      match matchLit ("de".toList) (s1.drop sp.length) with
      | some s3 =>
        ((match s3 with
          | c :: s4 => if pyLower c == 'l' then fechaAnio s4 else none
          | [] => none)
         <|> fechaAnio s3).map (fun y => (w, y))
      | none => none

/-- `\s+de\s+(\w+)\s+del?\s+(\d{4})`. -/
def fechaDeMesAnio (s : List Char) : Option (List Char × Nat) :=
  let sp := s.takeWhile isPySpace
  if sp.isEmpty then none
  else
    match matchLit ("de".toList) (s.drop sp.length) with
    | some s2 =>
      let sp2 := s2.takeWhile isPySpace
      if sp2.isEmpty then none else fechaMesAnio (s2.drop sp2.length)
    | none => none

/-- `(\d{1,2})\s+de\s+(\w+)\s+del?\s+(\d{4})` (greedy two-digit day first). -/
def fechaDayTail (s : List Char) : Option (Nat × List Char × Nat) :=
  (match s with
   | c1 :: c2 :: rest =>
     if isDigitC c1 && isDigitC c2 then
       (fechaDeMesAnio rest).map (fun p => (digitVal c1 * 10 + digitVal c2, p.1, p.2))
     else none
   | _ => none)
  <|>
  (match s with
   | c1 :: rest =>
     if isDigitC c1 then (fechaDeMesAnio rest).map (fun p => (digitVal c1, p.1, p.2))
     else none
   | _ => none)

/-- `[:\s]+`. -/
def colonSpacePlus (s : List Char) : Option (List Char) :=
  let sp := s.takeWhile fun c => c == ':' || isPySpace c
  if sp.isEmpty then none else some (s.drop sp.length)

/-- `[Ee]misio?n` (the optional `o` tried first). -/
def emisionLit (s : List Char) : Option (List Char) :=
  match matchLit ("emisi".toList) s with
  | some s1 =>
    (match s1 with
     | c :: s2 =>
       if pyLower c == 'o' then
         match s2 with
         | n :: s3 => if pyLower n == 'n' then some s3 else none
         | [] => none
       else none
     | [] => none)
    <|>
    (match s1 with
     | n :: s3 => if pyLower n == 'n' then some s3 else none
     | [] => none)
  | none => none

/-- Pattern 1: `[Ff]echa\s+[Ee]misio?n[:\s]+(\d{1,2})\s+de\s+(\w+)\s+del?\s+(\d{4})`. -/
def fechaP1 (s : List Char) : Option (Nat × List Char × Nat) :=
  match matchLit ("fecha".toList) s with
  | some s1 =>
    let sp := s1.takeWhile isPySpace
    if sp.isEmpty then none
    else
      match emisionLit (s1.drop sp.length) with
      | some s2 =>
        match colonSpacePlus s2 with
        | some s3 => fechaDayTail s3
        | none => none
      | none => none
  | none => none

/-- `/(\d{4})` then the end of the match. -/
def slashY (d : Nat) (ms : List Char) : List Char → Option (Nat × List Char × Nat)
  | '/' :: s1 =>
    match parse4Digits s1 with
    | some (y, _) => some (d, ms, y)
    | none => none
  | _ => none

/-- `/(\d{1,2})/(\d{4})` (greedy two-digit month first). -/
def slashMY (d : Nat) : List Char → Option (Nat × List Char × Nat)
  | '/' :: s1 =>
    (match s1 with
     | c1 :: c2 :: rest =>
       if isDigitC c1 && isDigitC c2 then slashY d [c1, c2] rest else none
     | _ => none)
    <|>
    (match s1 with
     | c1 :: rest => if isDigitC c1 then slashY d [c1] rest else none
     | _ => none)
  | _ => none

/-- Pattern 2: `[Ff]echa[:\s]+(\d{1,2})/(\d{1,2})/(\d{4})`. -/
def fechaP2 (s : List Char) : Option (Nat × List Char × Nat) :=
  match matchLit ("fecha".toList) s with
  | some s1 =>
    match colonSpacePlus s1 with
    | some s2 =>
      (match s2 with
       | c1 :: c2 :: rest =>
         if isDigitC c1 && isDigitC c2 then
           slashMY (digitVal c1 * 10 + digitVal c2) rest
         else none
       | _ => none)
      <|>
      (match s2 with
       | c1 :: rest => if isDigitC c1 then slashMY (digitVal c1) rest else none
       | _ => none)
    | none => none
  | none => none

/-- Pattern 3: `[Ee]mision[:\s]+(\d{1,2})\s+de\s+(\w+)\s+del?\s+(\d{4})`. -/
def fechaP3 (s : List Char) : Option (Nat × List Char × Nat) :=
  match matchLit ("emision".toList) s with
  | some s1 =>
    match colonSpacePlus s1 with
    | some s2 => fechaDayTail s2
    | none => none
  | none => none

/-- A calendar date as `datetime.date` (sentinel `1900-01-01` = not found). -/
structure PyDate where
  year : Nat
  month : Nat
  day : Nat
deriving DecidableEq, Repr

/-- Turn one regex match into a date, as the loop body does: month name via
`meses_map` (case-lowered), otherwise `int(grupos[1])`; any `ValueError`
(unknown month word, out-of-range date) makes the loop continue. -/
def fechaFromMatch (d : Nat) (g1 : List Char) (y : Nat) : Option PyDate :=
  match lookupMes (g1.map pyLower) with
  | some m => if dateCtorOk y m d then some ⟨y, m, d⟩ else none
  | none =>
    match pyIntOfStr g1 with
    | some m => if dateCtorOk y m.toNat d then some ⟨y, m.toNat, d⟩ else none
    | none => none

/-- The three patterns of `extract_fecha_emision`, each searched and parsed
in order; a parse failure falls through to the next pattern. -/
def fechaSearch (text : List Char) : Option PyDate :=
  (match searchFirst fechaP1 text with
   | some (d, g1, y) => fechaFromMatch d g1 y
   | none => none)
  <|>
  (match searchFirst fechaP2 text with
   | some (d, g1, y) => fechaFromMatch d g1 y
   | none => none)
  <|>
  (match searchFirst fechaP3 text with
   | some (d, g1, y) => fechaFromMatch d g1 y
   | none => none)

/-- `extract_fecha_emision`: sentinel `date(1900, 1, 1)` when nothing
matches or every match fails to parse. -/
def extract_fecha_emision (text : List Char) : PyDate :=
  match fechaSearch text with
  | some dt => dt
  | none => ⟨1900, 1, 1⟩

example :
    extract_fecha_emision (("Fecha Emision: 06 de Julio del 2023").toList)
      = ⟨2023, 7, 6⟩ := by decide
example : extract_fecha_emision (("Fecha: 6/7/2023").toList) = ⟨2023, 7, 6⟩ := by decide
example : extract_fecha_emision (("sin fecha").toList) = ⟨1900, 1, 1⟩ := by decide
example :
    extract_fecha_emision (("Fecha Emision: 31 de Febrero del 2023").toList)
      = ⟨1900, 1, 1⟩ := by decide

/-! ### `extract_empresa_emisora` (lines 134–160):
`^R\.?U\.?T.*?\n+\s*([A-Z][A-Z\s\.]+?)(?:\n)`, `re.MULTILINE | re.DOTALL`
(case sensitive). -/

/-- `[A-Z]` (no IGNORECASE). -/
def isUpperAZ (c : Char) : Bool := 65 ≤ c.toNat && c.toNat ≤ 90

/-- `[A-Z\s\.]`. -/
def isGroupChar (c : Char) : Bool := isUpperAZ c || isPySpace c || c == '.'

/-- The lazy `+?` of the name group: consume class characters one at a time,
stopping at the first position whose next character is the closing `\n`. -/
def emisoraLazy : List Char → List Char → Option (List Char)
  | acc, c :: rest =>
    if isGroupChar c then
      match rest with
      | '\n' :: _ => some ((c :: acc).reverse)
      | _ => emisoraLazy (c :: acc) rest
    else none
  | _, [] => none

/-- `\n+\s*([A-Z][A-Z\s\.]+?)(?:\n)` — the tail after the lazy `.*?`. -/
def emisoraTail (s : List Char) : Option (List Char) :=
  match s with
  | '\n' :: s1 =>
    match s1.dropWhile isPySpace with
    | c0 :: s3 => if isUpperAZ c0 then emisoraLazy [c0] s3 else none
    | [] => none
  | _ => none

/-- The lazy `.*?` (DOTALL): try the tail at each position, shortest first. -/
def rutHeaderLazy : List Char → Option (List Char)
  | [] => emisoraTail []
  | s@(_ :: rest) => emisoraTail s <|> rutHeaderLazy rest

/-- The full pattern at a line-start position. -/
def emisoraMatcher : List Char → Option (List Char)
  | 'R' :: s1 =>
    match optDot s1 with
    | 'U' :: s2 =>
      match optDot s2 with
      | 'T' :: s3 => rutHeaderLazy s3
      | _ => none
    | _ => none
  | _ => none

/-- `re.search` over the line-start positions (`^` with `re.MULTILINE`). -/
def searchLineStartAux {α : Type} (matcher : List Char → Option α) :
    Nat → Bool → List Char → Option α
  | 0, _, _ => none
  | _ + 1, atLS, [] => if atLS then matcher [] else none
  | fuel + 1, atLS, s@(c :: rest) =>
    (if atLS then matcher s else none)
    <|> searchLineStartAux matcher fuel (c == '\n') rest

/-- Anchored `re.search` (first line-start match). -/
def searchLineStart {α : Type} (matcher : List Char → Option α) (s : List Char) : Option α :=
  searchLineStartAux matcher (s.length + 1) true s

/-- `re.sub(r'\s+', ' ', s)`: collapse every whitespace run to one space
(fuelled scan; every step consumes at least one character). -/
def collapseWsAux : Nat → List Char → List Char
  | 0, s => s
  | _ + 1, [] => []
  | fuel + 1, c :: rest =>
    if isPySpace c then ' ' :: collapseWsAux fuel (rest.dropWhile isPySpace)
    else c :: collapseWsAux fuel rest

/-- `re.sub(r'\s+', ' ', s)`. -/
def collapseWs (s : List Char) : List Char := collapseWsAux s.length s

/-- `extract_empresa_emisora`: the issuer name is the line following a
`R.U.T` header; `""` when the pattern misses or the cleaned name is too
short. -/
def extract_empresa_emisora (text : List Char) : List Char :=
  match searchLineStart emisoraMatcher text with
  | some g =>
    let empresa := collapseWs (pyStrip g)
    if empresa ≠ [] ∧ 2 < empresa.length then empresa else []
  | none => []

example :
    extract_empresa_emisora (("R.U.T. 76.123.456-7\nACME CORP S.A.\nGIRO X").toList)
      = ("ACME CORP S.A.").toList := by decide
example : extract_empresa_emisora (("sin rut aqui").toList) = [] := by decide

/-! ### `extract_empresa_destinataria` (lines 162–188),
`re.IGNORECASE | re.MULTILINE`. -/

/-- ASCII letter (what `[A-Z]` matches under `re.IGNORECASE`). -/
def isLetterAscii (c : Char) : Bool :=
  (65 ≤ c.toNat && c.toNat ≤ 90) || (97 ≤ c.toNat && c.toNat ≤ 122)

/-- `[A-Z\s\.]` under IGNORECASE. -/
def isGroupCharCI (c : Char) : Bool := isLetterAscii c || isPySpace c || c == '.'

/-- `(?:\n|R\.U\.T)` holds at this position (the `\n` alternative first). -/
def destTailHere : List Char → Bool
  | '\n' :: _ => true
  | c1 :: '.' :: c2 :: '.' :: c3 :: _ =>
    pyLower c1 == 'r' && pyLower c2 == 'u' && pyLower c3 == 't'
  | _ => false

/-- The lazy `+?` of the recipient-name group. -/
def destLazy : List Char → List Char → Option (List Char)
  | acc, c :: rest =>
    if isGroupCharCI c then
      if destTailHere rest then some ((c :: acc).reverse)
      else destLazy (c :: acc) rest
    else none
  | _, [] => none

/-- `([A-Z][A-Z\s\.]+?)(?:\n|R\.U\.T)` under IGNORECASE. -/
def destGroup : List Char → Option (List Char)
  | c0 :: s1 => if isLetterAscii c0 then destLazy [c0] s1 else none
  | [] => none

/-- `SENOR\s*\(?\s*ES\s*\)?\s*[:\s]+(grp)` (or `SEÑOR`), at the current
position; `lit` is the lowered literal. -/
def destP (lit : List Char) (s : List Char) : Option (List Char) :=
  match matchLit lit s with
  | some s1 =>
    let s2 := s1.dropWhile isPySpace
    let s3 := match s2 with
      | '(' :: r => r
      | _ => s2
    let s4 := s3.dropWhile isPySpace
    match matchLit ("es".toList) s4 with
    | some s5 =>
      match s5.dropWhile isPySpace with
      | ')' :: r =>
        match colonSpacePlus r with
        | some s8 => destGroup s8
        | none => none
      | _ =>
        match colonSpacePlus s5 with
        | some s8 => destGroup s8
        | none => none
    | none => none
  | none => none

/-- `CLIENTE[:\s]+(grp)` at the current position. -/
def destP3 (s : List Char) : Option (List Char) :=
  match matchLit ("cliente".toList) s with
  | some s1 =>
    match colonSpacePlus s1 with
    | some s2 => destGroup s2
    | none => none
  | none => none

/-- One loop iteration of `extract_empresa_destinataria`: a match is kept
only if the cleaned name is longer than 2 characters, otherwise the loop
falls through to the next pattern. -/
def destTryPattern (m : Option (List Char)) : Option (List Char) :=
  match m with
  | some g =>
    let empresa := collapseWs (pyStrip g)
    if empresa ≠ [] ∧ 2 < empresa.length then some empresa else none
  | none => none

/-- The pattern cascade of `extract_empresa_destinataria`. -/
def destSearch (text : List Char) : Option (List Char) :=
  destTryPattern (searchFirst (destP ("senor".toList)) text) <|>
  destTryPattern (searchFirst (destP ("señor".toList)) text) <|>
  destTryPattern (searchFirst destP3 text)

/-- `extract_empresa_destinataria`: `""` when every pattern misses. -/
def extract_empresa_destinataria (text : List Char) : List Char :=
  match destSearch text with
  | some e => e
  | none => []

example :
    extract_empresa_destinataria (("SENOR(ES): CLIENTE EJEMPLO LTDA\nmas").toList)
      = ("CLIENTE EJEMPLO LTDA").toList := by decide
example : extract_empresa_destinataria (("nada relevante").toList) = [] := by decide

/-! ### `extract_domicilios` (lines 190–238). -/

/-- `SENOR\s*\(?\s*ES\s*\)?` (IGNORECASE) — only used to locate the split
point (`senor_match.start()`); the trailing `\)?` always succeeds and does
not affect the start position. -/
def senorSimpleMatcher (s : List Char) : Option Unit :=
  match matchLit ("senor".toList) s with
  | some s1 =>
    let s2 := s1.dropWhile isPySpace
    let s3 := match s2 with
      | '(' :: r => r
      | _ => s2
    let s4 := s3.dropWhile isPySpace
    match matchLit ("es".toList) s4 with
    | some _ => some ()
    | none => none
  | none => none

/-- Index of the first match (`re.search(...).start()`). -/
def searchPosAux (matcher : List Char → Option Unit) : Nat → Nat → List Char → Option Nat
  | 0, _, _ => none
  | _ + 1, i, [] => (matcher []).map (fun _ => i)
  | fuel + 1, i, s@(_ :: tail) =>
    match matcher s with
    | some _ => some i
    | none => searchPosAux matcher fuel (i + 1) tail

/-- Position of the first match of a matcher. -/
def searchPos (matcher : List Char → Option Unit) (s : List Char) : Option Nat :=
  searchPosAux matcher (s.length + 1) 0 s

/-- `seccion_emisor`: the text before the `SENOR(ES)` marker (whadole text if
the marker is absent). -/
def emisorSection (text : List Char) : List Char :=
  match searchPos senorSimpleMatcher text with
  | some i => text.take i
  | none => text

/-- `seccion_destinatario`: the text from the marker on (whole text if
absent). -/
def destSection (text : List Char) : List Char :=
  match searchPos senorSimpleMatcher text with
  | some i => text.drop i
  | none => text

/-- `[A-Z0-9\s]`. -/
def isAddr1Char (c : Char) : Bool := isUpperAZ c || isDigitC c || isPySpace c

/-- `[A-Z0-9\s\-,]`. -/
def isAddr2Char (c : Char) : Bool := isAddr1Char c || c == '-' || c == ','

/-- `(?:\n|$)` — consume a newline, or succeed at the end of the string. -/
def lineEnd : List Char → Option (List Char)
  | [] => some []
  | '\n' :: r => some r
  | _ => none

/-- `(?:\s+N°\d+)?(?:\n|$)` — the greedy optional group is tried first.
Returns the rest after the whole match. -/
def addrEnd (s : List Char) : Option (List Char) :=
  (match
    (let sp := s.takeWhile isPySpace
     if sp.isEmpty then none
     else
       match s.drop sp.length with
       | n :: deg :: r =>
         if n == 'N' && deg == '°' then
           let ds := r.takeWhile isDigitC
           if ds.isEmpty then none else some (r.drop ds.length)
         else none
       | _ => none) with
   | some r2 => lineEnd r2
   | none => none)
  <|> lineEnd s

/-- The lazy `[A-Z0-9\s\-,]*?`: try the match end at every length, shortest
first; returns the lazily-consumed characters and the rest after the match. -/
def addrLazyAux : Nat → List Char → List Char → Option (List Char × List Char)
  | 0, _, _ => none
  | fuel + 1, acc, s =>
    match addrEnd s with
    | some rest => some (acc.reverse, rest)
    | none =>
      match s with
      | c :: rest2 => if isAddr2Char c then addrLazyAux fuel (c :: acc) rest2 else none
      | [] => none

/-- The lazy scan, with enough fuel for the whole suffix. -/
def addrLazy (acc s : List Char) : Option (List Char × List Char) :=
  addrLazyAux (s.length + 1) acc s

/-- Backtracking of the greedy `[A-Z0-9\s]+` before the mandatory `\d`:
`runRev` is the (reversed) maximal class run; candidates are tried longest
first, each requiring the next character to be a digit and the run part to
be non-empty. -/
def addrShrink (pre : List Char) : List Char → List Char → Option (List Char × List Char)
  | runRev, after =>
    match runRev with
    | [] => none
    | d :: runRev' =>
      (if decide (runRev' ≠ []) && isDigitC d then
         match addrLazy [] after with
         | some (lz, rest) => some (pre ++ runRev'.reverse ++ [d] ++ lz, rest)
         | none => none
       else none)
      <|> addrShrink pre runRev' (d :: after)

/-- `^([A-Z][A-Z0-9\s]+\d[A-Z0-9\s\-,]*?)(?:\s+N°\d+)?(?:\n|$)` at a
line-start position (case sensitive). -/
def addrMatcher : List Char → Option (List Char × List Char)
  | c0 :: s1 =>
    if isUpperAZ c0 then
      let run := s1.takeWhile isAddr1Char
      addrShrink [c0] run.reverse (s1.drop run.length)
    else none
  | [] => none

/-- `re.findall` over line-start positions (`^` with `re.MULTILINE`): after
each match the scan resumes at its end, which is again a line start (the
match either consumed the closing newline or reached the end of the text). -/
def findAllLSAux (matcher : List Char → Option (List Char × List Char)) :
    Nat → Bool → List Char → List (List Char)
  | 0, _, _ => []
  | _ + 1, atLS, [] =>
    if atLS then
      match matcher [] with
      | some (cap, _) => [cap]
      | none => []
    else []
  | fuel + 1, atLS, s@(c :: tail) =>
    if atLS then
      match matcher s with
      | some (cap, rest) => cap :: findAllLSAux matcher fuel true rest
      | none => findAllLSAux matcher fuel (c == '\n') tail
    else findAllLSAux matcher fuel (c == '\n') tail

/-- Anchored `re.findall`. -/
def findAllLineStart (matcher : List Char → Option (List Char × List Char))
    (s : List Char) : List (List Char) :=
  findAllLSAux matcher (s.length + 1) true s

/-- The selection loop over the issuer-address candidates: first candidate
longer than 10 characters not containing `'FACTURA'`. -/
def pickDomicilioEmisor (cands : List (List Char)) : Option (List Char) :=
  cands.find? fun d => decide (10 < d.length) && !(containsSub ("FACTURA".toList) d)

/-- `_clean_domicilio`: collapse whitespace, replace newlines, strip. -/
def clean_domicilio (d : List Char) : List Char :=
  pyStrip ((collapseWs d).map fun c => if c == '\n' then ' ' else c)

/-- `DIRECCI[OÓ]N\s*:\s*([^\n]+)` (IGNORECASE) at the current position. -/
def direccionMatcher (s : List Char) : Option (List Char) :=
  match matchLit ("direcci".toList) s with
  | some s1 =>
    match s1 with
    | c :: s2 =>
      if pyLower c == 'o' || pyLower c == 'ó' then
        match s2 with
        | n :: s3 =>
          if pyLower n == 'n' then
            match s3.dropWhile isPySpace with
            | ':' :: s5 =>
              let s6 := s5.dropWhile isPySpace
              let cap := s6.takeWhile fun c => !(c == '\n')
              if cap.isEmpty then none else some cap
            | _ => none
          else none
        | [] => none
      else none
    | [] => none
  | none => none

/-- `extract_domicilios`: issuer address from the pre-`SENOR(ES)` section's
line candidates, recipient address from an explicit `DIRECCIÓN:` label in
the rest. -/
def extract_domicilios (text : List Char) : List Char × List Char :=
  let dom_emisor :=
    match pickDomicilioEmisor (findAllLineStart addrMatcher (emisorSection text)) with
    | some d => clean_domicilio d
    | none => []
  let dom_dest :=
    match searchFirst direccionMatcher (destSection text) with
    | some g => clean_domicilio g
    | none => []
  (dom_emisor, dom_dest)

example :
    extract_domicilios
      (("EMISORA SA\nAV SIEMPRE VIVA 742 SANTIAGO\nSENOR(ES): X\nDIRECCION: Calle Falsa 123").toList)
      = (("EMISORA SA AV SIEMPRE VIVA 742 SANTIAGO").toList, ("Calle Falsa 123").toList) := by
  decide
example : extract_domicilios (("nada").toList) = ([], []) := by decide

/-! ### `extract_all` (lines 298–330). -/

/-- The structured output of `FacturaExtractorService.extract_all`. -/
structure InvoiceFields where
  numero_factura : Nat
  fecha_emision : PyDate
  empresa_emisora : List Char
  empresa_destinataria : List Char
  rut_emisor : List Char
  rut_destinatario : List Char
  domicilio_emisor : List Char
  domicilio_destinatario : List Char
  monto_neto : Nat
  iva : Nat
  total : Nat
  impuesto_adicional : Nat
deriving DecidableEq, Repr

/-- `FacturaExtractorService.extract_all`: a total function — every
component extractor handles its own failure and yields the documented
sentinel, so no input can raise. -/
def extract_all (text : List Char) : InvoiceFields :=
  let ruts := extract_ruts text
  let doms := extract_domicilios text
  let montos := extract_montos text
  { numero_factura := extract_numero_factura text
    fecha_emision := extract_fecha_emision text
    empresa_emisora := extract_empresa_emisora text
    empresa_destinataria := extract_empresa_destinataria text
    rut_emisor := ruts.1
    rut_destinatario := ruts.2
    domicilio_emisor := doms.1
    domicilio_destinatario := doms.2
    monto_neto := montos.neto
    iva := montos.iva
    total := montos.total
    impuesto_adicional := montos.impuesto_adicional }

/-- **C7.** `extract_all` is total — it is a function on all of
`List Char`, defined by total component extractors, so no input (empty
string or arbitrary noise included) can fail — and every absent field takes
its documented sentinel: `0` for the invoice number and the amounts, the
date `1900-01-01`, and the empty string for names, RUTs and addresses. -/
theorem extract_all_total_sentinels (text : List Char) :
    (numeroSearch text = none → (extract_all text).numero_factura = 0) ∧
    (fechaSearch text = none → (extract_all text).fecha_emision = ⟨1900, 1, 1⟩) ∧
    (searchLineStart emisoraMatcher text = none →
      (extract_all text).empresa_emisora = []) ∧
    (destSearch text = none → (extract_all text).empresa_destinataria = []) ∧
    (extract_ruts_list text = [] →
      (extract_all text).rut_emisor = [] ∧ (extract_all text).rut_destinatario = []) ∧
    ((extract_ruts_list text).length ≤ 1 → (extract_all text).rut_destinatario = []) ∧
    (pickDomicilioEmisor (findAllLineStart addrMatcher (emisorSection text)) = none →
      (extract_all text).domicilio_emisor = []) ∧
    (searchFirst direccionMatcher (destSection text) = none →
      (extract_all text).domicilio_destinatario = []) ∧
    (searchFirst netoMatcher text = none → (extract_all text).monto_neto = 0) ∧
    (findAll ivaMatcher text = [] → (extract_all text).iva = 0) ∧
    (searchFirst netoMatcher text = none ∧ findAll totalMatcher text = [] →
      (extract_all text).total = 0) ∧
    (findAll impuestoMatcher text = [] →
      (extract_all text).impuesto_adicional = 0) := by
  refine ⟨?_, ?_, ?_, ?_, ?_, ?_, ?_, ?_, ?_, ?_, ?_, ?_⟩
  · intro h
    simp [extract_all, extract_numero_factura, h]
  · intro h
    simp [extract_all, extract_fecha_emision, h]
  · intro h
    simp [extract_all, extract_empresa_emisora, h]
  · intro h
    simp [extract_all, extract_empresa_destinataria, h]
  · intro h
    constructor <;> simp [extract_all, extract_ruts, h]
  · intro h
    have hnone : (extract_ruts_list text)[1]? = none := List.getElem?_eq_none h
    simp [extract_all, extract_ruts, hnone]
  · intro h
    simp [extract_all, extract_domicilios, h]
  · intro h
    simp [extract_all, extract_domicilios, h]
  · intro h
    simp [extract_all, extract_montos, h]
  · intro h
    simp [extract_all, extract_montos, h]
  · rintro ⟨h1, h2⟩
    simp [extract_all, extract_montos, h1, h2]
  · intro h
    simp [extract_all, extract_montos, h]

/-- Witness for C7 at the empty string: every field is its sentinel. -/
theorem extract_all_total_sentinels_witness :
    (extract_all []).numero_factura = 0 ∧
    (extract_all []).fecha_emision = ⟨1900, 1, 1⟩ ∧
    (extract_all []).empresa_emisora = [] ∧
    (extract_all []).empresa_destinataria = [] ∧
    (extract_all []).rut_emisor = [] ∧
    (extract_all []).rut_destinatario = [] ∧
    (extract_all []).domicilio_emisor = [] ∧
    (extract_all []).domicilio_destinatario = [] ∧
    (extract_all []).monto_neto = 0 ∧
    (extract_all []).iva = 0 ∧
    (extract_all []).total = 0 ∧
    (extract_all []).impuesto_adicional = 0 := by
  obtain ⟨h1, h2, h3, h4, h5, h6, h7, h8, h9, h10, h11, h12⟩ :=
    extract_all_total_sentinels []
  exact ⟨h1 rfl, h2 rfl, h3 rfl, h4 rfl, (h5 rfl).1, (h5 rfl).2, h7 rfl, h8 rfl,
    h9 rfl, h10 rfl, h11 ⟨rfl, rfl⟩, h12 rfl⟩
